import Mathlib

/-!
# Verification of the enemy/hazard simulation core (`src/enemies.js`)

This file is a shallow embedding of the simulation module `window.Enemies`
of `src/enemies.js` (the four zones, their enemies, hazards, eggs, and the
central safe zone), together with proofs and refutations of the stated
behavioural properties.

Modelling conventions:
* JS numbers are modelled as real numbers (`ℝ`); `Math.sqrt` is `Real.sqrt`.
* The JS idiom `dist || 1` (substitute 1 for a zero distance) is `orOne`.
* `Math.random()` is modelled by an explicit oracle `ρ : ℕ → ℝ` together with
  a cursor `k : ℕ` that is advanced once per draw, in source order.
* A status effect's `duration === Infinity` is modelled by `Option ℝ` with
  `none` standing for `Infinity`.  The JS objects carry a `multiplier` field
  only for slow effects; the embedding gives every effect a `multiplier`
  field (defaulted to 1), which is read only for `slow`/`permanentSlow`,
  exactly as in the source.
* The canopy egg's `_host` object reference is modelled as an index into the
  obstacle list (`Option ℕ`); obstacles are only ever appended, so the index
  is a stable rendering of the reference.
* Mutation of the shared `player` record is modelled by explicitly threading
  the player value through the zone updates in source order.
* Rendering-only fields (`color`, `facing`, visual phases) are kept only
  where they are part of the mutable state (`visualPhase`); colours and
  fonts are omitted as they never feed back into the simulation.
-/

noncomputable section

namespace Enemies

open Classical

/-- Map width in px (src/enemies.js line 17). -/
def MAP_W : ℝ := 2000

/-- Map height in px (src/enemies.js line 17). -/
def MAP_H : ℝ := 2000

/-- Map centre x (src/enemies.js line 18). -/
def CENTER_X : ℝ := 1000

/-- Map centre y (src/enemies.js line 18). -/
def CENTER_Y : ℝ := 1000

/-- Per-zone alive-enemy cap (src/enemies.js line 19). -/
def MAX_PER_ZONE : ℕ := 6

/-- An axis-aligned rectangle, used for the four zones. -/
structure Rect where
  x : ℝ
  y : ℝ
  w : ℝ
  h : ℝ

/-- `ZONES.volcanic` (src/enemies.js line 23). -/
def zoneVolcanic : Rect := ⟨50, 50, 900, 900⟩

/-- `ZONES.glacial` (src/enemies.js line 24). -/
def zoneGlacial : Rect := ⟨1050, 50, 900, 900⟩

/-- `ZONES.canopy` (src/enemies.js line 25). -/
def zoneCanopy : Rect := ⟨1050, 1050, 900, 900⟩

/-- `ZONES.reef` (src/enemies.js line 26). -/
def zoneReef : Rect := ⟨50, 1050, 900, 900⟩

/-- A status effect `{ type, duration, multiplier? }`; `duration = none`
means the JS `Infinity` (permanent effect). -/
structure Effect where
  type : String
  duration : Option ℝ
  multiplier : ℝ := 1

/-- The slice of the player record that `enemies.js` reads and writes:
`x, y, radius, abilityCooldown, activeEffects` (the `facing` field is never
consumed by this module). -/
structure Player where
  x : ℝ
  y : ℝ
  radius : ℝ
  abilityCooldown : ℝ
  activeEffects : List Effect

/-- An enemy.  The four variants share one JS object shape with
variant-specific optional fields; the embedding carries all fields on one
structure, with the factory functions below setting exactly the fields the
source sets. -/
structure Enemy where
  type : String
  x : ℝ
  y : ℝ
  radius : ℝ
  speed : ℝ
  alive : Bool := true
  frozen : Bool := true
  activeEffects : List Effect := []
  sizeMult : ℝ := 1
  baseSpeed : ℝ := 0
  speedBoostMult : ℝ := 1
  trailTimer : ℝ := 0
  expandTimer : ℝ := 0
  expandRadius : ℝ := 50
  visible : Bool := false
  lunging : Bool := false
  lungeVx : ℝ := 0
  lungeVy : ℝ := 0
  teleportRange : ℝ := 150
  waveOffset : ℝ := 0

/-- A lava trail circle `{ x, y, radius, life, maxLife }`. -/
structure LavaTrail where
  x : ℝ
  y : ℝ
  radius : ℝ
  life : ℝ
  maxLife : ℝ

/-- A geyser `{ x, y, radius, timer, erupting, eruptDur }`. -/
structure Geyser where
  x : ℝ
  y : ℝ
  radius : ℝ
  timer : ℝ
  erupting : Bool
  eruptDur : ℝ

/-- A frozen tile `{ x, y, w, h }`. -/
structure FrozenTile where
  x : ℝ
  y : ℝ
  w : ℝ
  h : ℝ

/-- An ice bullet `{ x, y, vx, vy, radius, alive }`. -/
structure IceBullet where
  x : ℝ
  y : ℝ
  vx : ℝ
  vy : ℝ
  radius : ℝ
  alive : Bool

/-- A canopy foliage obstacle `{ x, y, r }`. -/
structure CanopyObstacle where
  x : ℝ
  y : ℝ
  r : ℝ

/-- A reef bouncing obstacle `{ x, y, vx, vy, r }`. -/
structure ReefObstacle where
  x : ℝ
  y : ℝ
  vx : ℝ
  vy : ℝ
  r : ℝ

/-- The volcanic egg `{ x, y, collected }`. -/
structure VolcanicEgg where
  x : ℝ
  y : ℝ
  collected : Bool

/-- The glacial egg `{ x, y, collected, thawTimer, thawRequired }`. -/
structure GlacialEgg where
  x : ℝ
  y : ℝ
  collected : Bool
  thawTimer : ℝ
  thawRequired : ℝ

/-- The canopy egg; `host` is the index of the `_host` obstacle. -/
structure CanopyEgg where
  x : ℝ
  y : ℝ
  collected : Bool
  visible : Bool
  host : Option ℕ

/-- The reef egg `{ x, y, vx, vy, collected }`. -/
structure ReefEgg where
  x : ℝ
  y : ℝ
  vx : ℝ
  vy : ℝ
  collected : Bool

/-- The safe zone record (src/enemies.js lines 45-52). -/
structure SafeZone where
  x : ℝ
  y : ℝ
  radius : ℝ
  uses : ℕ
  maxUses : ℕ
  active : Bool
  playerWasInside : Bool

/-- `S.volcanic` (src/enemies.js lines 55-62). -/
structure VolcanicState where
  enemies : List Enemy
  lavaTrails : List LavaTrail
  geysers : List Geyser
  speedTimer : ℝ
  visualPhase : ℝ
  egg : VolcanicEgg

/-- `S.glacial` (src/enemies.js lines 65-71). -/
structure GlacialState where
  enemies : List Enemy
  frozenTiles : List FrozenTile
  iceBullets : List IceBullet
  bulletCooldown : ℝ
  egg : GlacialEgg

/-- `S.canopy` (src/enemies.js lines 74-84). -/
structure CanopyState where
  enemies : List Enemy
  obstacles : List CanopyObstacle
  multiplyTimer : ℝ
  teleportTimer : ℝ
  teleportRange : ℝ
  escalateTimer : ℝ
  escalateWave : ℕ
  visualPhase : ℝ
  egg : CanopyEgg

/-- `S.reef` (src/enemies.js lines 87-96). -/
structure ReefState where
  enemies : List Enemy
  obstacles : List ReefObstacle
  multiplyTimer : ℝ
  waveTimer : ℝ
  waveComplexity : ℕ
  wavePhase : ℝ
  visualPhase : ℝ
  egg : ReefEgg

/-- The whole live state `S` (src/enemies.js lines 36-97). -/
structure SimState where
  level : ℕ
  speedMult : ℝ
  time : ℝ
  playerMoved : Bool
  prevPX : Option ℝ
  prevPY : Option ℝ
  prevAbilityCooldown : ℝ
  safeZone : SafeZone
  volcanic : VolcanicState
  glacial : GlacialState
  canopy : CanopyState
  reef : ReefState

/-! ## Shared helpers -/

/-- `Math.sqrt(dx*dx + dy*dy)`. -/
def hyp (dx dy : ℝ) : ℝ := Real.sqrt (dx * dx + dy * dy)

/-- The JS idiom `d || 1`: substitute 1 when the number is 0 (the
division-by-zero guard used by the steering helpers). -/
def orOne (d : ℝ) : ℝ := if d = 0 then 1 else d

/-- `Math.atan2(y, x)`, as the argument of the complex number `x + y·i`. -/
def atan2 (y x : ℝ) : ℝ := Complex.arg ⟨x, y⟩

/-- `_aliveCount` (src/enemies.js lines 1206-1208): living enemies in a list. -/
def aliveCount (l : List Enemy) : ℕ := (l.filter fun e => e.alive).length

/-- `_inZone` (src/enemies.js lines 1200-1203). -/
def inZone (x y : ℝ) (z : Rect) : Prop :=
  z.x ≤ x ∧ x ≤ z.x + z.w ∧ z.y ≤ y ∧ y ≤ z.y + z.h

/-- Whether an effect list contains a movement-blocking `freeze`/`stun`
effect (src/enemies.js lines 1144-1146). -/
def blockedByEffect (effs : List Effect) : Bool :=
  effs.any fun eff => eff.type == "freeze" || eff.type == "stun"

/-- The product of `slow`/`permanentSlow` multipliers
(src/enemies.js lines 1147-1152). -/
def effectSpeedMult (effs : List Effect) : ℝ :=
  effs.foldl
    (fun acc eff =>
      if eff.type == "slow" || eff.type == "permanentSlow" then acc * eff.multiplier
      else acc) 1

/-- `_chasePlayer` (src/enemies.js lines 1141-1157): move the enemy toward
the player, respecting freeze/stun/slow effects, with the `|| 1` guard on
the normalising distance. -/
def chasePlayer (e : Enemy) (p : Player) (dt : ℝ) : Enemy :=
  if e.frozen = true then e
  else if blockedByEffect e.activeEffects = true then e
  else
    let speedMult := effectSpeedMult e.activeEffects
    let dx := p.x - e.x
    let dy := p.y - e.y
    let d := orOne (hyp dx dy)
    { e with
      x := e.x + dx / d * e.speed * speedMult * dt
      y := e.y + dy / d * e.speed * speedMult * dt }

/-- `_blockFromSafeZone` (src/enemies.js lines 1160-1173): while the safe
zone is active, push each alive enemy closer than `radius + e.radius` back
out to exactly that distance (with the `|| 1` guard). -/
def blockFromSafeZone (sz : SafeZone) (enemies : List Enemy) : List Enemy :=
  if sz.active = false then enemies
  else
    enemies.map fun e =>
      if e.alive = false then e
      else
        let dx := e.x - sz.x
        let dy := e.y - sz.y
        let d := orOne (hyp dx dy)
        let minD := sz.radius + e.radius
        if d < minD then { e with x := sz.x + dx / d * minD, y := sz.y + dy / d * minD }
        else e

/-- `_knockBack` (src/enemies.js lines 1176-1183) on a position pair:
push the entity `distance` px away from a circular obstacle when
overlapping (with the `|| 1` guard). -/
def knockBack (ex ey ox oy obsR entityRadius distance : ℝ) : ℝ × ℝ :=
  let dx := ex - ox
  let dy := ey - oy
  let d := orOne (hyp dx dy)
  if d < entityRadius + obsR then (ex + dx / d * distance, ey + dy / d * distance)
  else (ex, ey)

/-- One frame of `_tickEffects` on a single effect list
(src/enemies.js lines 1186-1197): finite durations tick down and expired
effects are removed; `Infinity` (`none`) effects are untouched. -/
def tickEffectList (dt : ℝ) (effs : List Effect) : List Effect :=
  effs.filterMap fun eff =>
    match eff.duration with
    | none => some eff
    | some d => if d - dt ≤ 0 then none else some { eff with duration := some (d - dt) }

/-- `_tickEffects` (src/enemies.js lines 1186-1197). -/
def tickEffects (enemies : List Enemy) (dt : ℝ) : List Enemy :=
  enemies.map fun e => { e with activeEffects := tickEffectList dt e.activeEffects }

/-! ## Safe zone -/

/-- `_updateSafeZone` (src/enemies.js lines 309-324): detect a *new* entry
of the player (strictly entirely inside: distance < radius − player.radius),
consume a use, shrink the radius by 20 %, and deactivate when the use
counter reaches `maxUses` or the radius drops below 18. -/
def updateSafeZone (sz : SafeZone) (p : Player) : SafeZone :=
  if sz.active = false then sz
  else
    let dx := p.x - sz.x
    let dy := p.y - sz.y
    let inside : Prop := hyp dx dy < sz.radius - p.radius
    let sz1 :=
      if inside ∧ sz.playerWasInside = false then
        let radius' := sz.radius * 0.80
        { sz with
          uses := sz.uses + 1
          radius := radius'
          active := if sz.maxUses ≤ sz.uses + 1 ∨ radius' < 18 then false else sz.active }
      else sz
    { sz1 with playerWasInside := decide inside }

/-! ## Volcanic Wastes -/

/-- `makeMagmawyrm` (src/enemies.js lines 102-114).  The JS defaulting
idiom `sizeMult || 1` / `extraSpeed || 1` is rendered with `orOne`. -/
def makeMagmawyrm (speedMult x y sizeMult0 extraSpeed0 : ℝ) : Enemy :=
  let sizeMult := orOne sizeMult0
  let extraSpeed := orOne extraSpeed0
  let base := 60 * speedMult * extraSpeed
  { type := "magmawyrm", x := x, y := y
    radius := 20 * sizeMult, sizeMult := sizeMult
    baseSpeed := base, speed := base, speedBoostMult := 1
    alive := true, frozen := true
    trailTimer := 0, activeEffects := [] }

/-- The speed-boost step of `_updateVolcanic` (src/enemies.js lines
332-339): +15 % compounding speed every 5 s. -/
def volcanicSpeedStep (dt speedTimer : ℝ) (enemies : List Enemy) : ℝ × List Enemy :=
  let t := speedTimer + dt
  if t ≥ 5 then
    (t - 5,
     enemies.map fun e =>
       let b := e.speedBoostMult * 1.15
       { e with speedBoostMult := b, speed := e.baseSpeed * b })
  else (t, enemies)

/-- The push-out applied by a lava trail or an erupting geyser
(src/enemies.js lines 344-352 and 360-367): move the player just outside
the circle, but only when the distance is strictly positive. -/
def lavaPush (p : Player) (tx ty tradius : ℝ) : Player :=
  let dx := p.x - tx
  let dy := p.y - ty
  let d := hyp dx dy
  if d < tradius + p.radius ∧ d > 0 then
    { p with
      x := p.x + dx / d * (tradius + p.radius - d + 1)
      y := p.y + dy / d * (tradius + p.radius - d + 1) }
  else p

/-- Tick and cull lava trails, then push the player out of the surviving
ones (src/enemies.js lines 342-352). -/
def volcanicTrailStep (dt : ℝ) (trails : List LavaTrail) (p : Player) :
    List LavaTrail × Player :=
  let ts := (trails.map fun t => { t with life := t.life - dt }).filter
    fun t => decide (t.life > 0)
  (ts, ts.foldl (fun pl t => lavaPush pl t.x t.y t.radius) p)

/-- One geyser's cycle step plus its player push-out
(src/enemies.js lines 355-368). -/
def geyserStep (dt : ℝ) (pl : Player) (g : Geyser) : Geyser × Player :=
  let g1 : Geyser := { g with timer := g.timer + dt }
  let g2 := if g1.erupting = false ∧ g1.timer ≥ 5 then
      { g1 with erupting := true, timer := 0 } else g1
  let g3 := if g2.erupting = true ∧ g2.timer ≥ g2.eruptDur then
      { g2 with erupting := false, timer := 0 } else g2
  if g3.erupting = true then (g3, lavaPush pl g3.x g3.y g3.radius) else (g3, pl)

/-- All geysers, in order, threading the player (src/enemies.js 355-368). -/
def volcanicGeysersStep (dt : ℝ) (geysers : List Geyser) (pl : Player) :
    List Geyser × Player :=
  geysers.foldl
    (fun acc g =>
      let r := geyserStep dt acc.2 g
      (acc.1 ++ [r.1], r.2))
    ([], pl)

/-- A split child (src/enemies.js lines 391-400): a magmawyrm at 0.6× the
parent's size, ×1.3 base speed, inheriting the parent's accumulated speed
boost, unfrozen; `r1`, `r2` are the two `Math.random()` draws for the
offset. -/
def splitChild (speedMult : ℝ) (e : Enemy) (r1 r2 : ℝ) : Enemy :=
  let c := makeMagmawyrm speedMult
    (e.x + (r1 - 0.5) * e.radius * 2)
    (e.y + (r2 - 0.5) * e.radius * 2)
    (e.sizeMult * 0.6) 1.3
  { c with
    frozen := false
    speedBoostMult := e.speedBoostMult
    speed := c.baseSpeed * e.speedBoostMult }

/-- The per-enemy loop of `_updateVolcanic` (src/enemies.js lines
373-405): chase, drop lava trails, and on `abilityJustUsed` kill any large
enemy within 200 px of the player, queueing two children when the alive
count of the (partially mutated) enemy array plus 2 stays within the cap.
`acc` is the already-processed prefix of the enemy array; children are
queued in `splits` and are *not* seen by the `_aliveCount` check. -/
def volcanicEnemiesLoop (ρ : ℕ → ℝ) (speedMult : ℝ) (abil : Bool) (pl : Player) (dt : ℝ) :
    List Enemy → List Enemy → List Enemy → List LavaTrail → ℕ →
    List Enemy × List Enemy × List LavaTrail × ℕ
  | acc, [], splits, trails, k => (acc, splits, trails, k)
  | acc, e :: rest, splits, trails, k =>
    if e.alive = false ∨ e.frozen = true then
      volcanicEnemiesLoop ρ speedMult abil pl dt (acc ++ [e]) rest splits trails k
    else
      let e1 := chasePlayer e pl dt
      let e2 := { e1 with trailTimer := e1.trailTimer + dt }
      let t := if e2.trailTimer ≥ 0.3 then
          ({ e2 with trailTimer := 0 },
           trails ++ [⟨e2.x, e2.y, e2.radius * 0.9, 5, 5⟩])
        else (e2, trails)
      let e3 := t.1
      if abil = true ∧ hyp (pl.x - e3.x) (pl.y - e3.y) ≤ 200 ∧ e3.sizeMult > 0.4 then
        let e4 := { e3 with alive := false }
        if aliveCount acc + aliveCount rest + 2 ≤ MAX_PER_ZONE then
          let c1 := splitChild speedMult e4 (ρ k) (ρ (k + 1))
          let c2 := splitChild speedMult e4 (ρ (k + 2)) (ρ (k + 3))
          volcanicEnemiesLoop ρ speedMult abil pl dt (acc ++ [e4]) rest
            (splits ++ [c1, c2]) t.2 (k + 4)
        else
          volcanicEnemiesLoop ρ speedMult abil pl dt (acc ++ [e4]) rest splits t.2 k
      else
        volcanicEnemiesLoop ρ speedMult abil pl dt (acc ++ [e3]) rest splits t.2 k

/-- `_updateVolcanic` (src/enemies.js lines 328-409). -/
def updateVolcanic (ρ : ℕ → ℝ) (k : ℕ) (sz : SafeZone) (dt : ℝ) (pl : Player)
    (abil : Bool) (speedMult : ℝ) (v : VolcanicState) : VolcanicState × Player × ℕ :=
  let sp := volcanicSpeedStep dt v.speedTimer v.enemies
  let tr := volcanicTrailStep dt v.lavaTrails pl
  let gy := volcanicGeysersStep dt v.geysers tr.2
  let en := tickEffects sp.2 dt
  let lp := volcanicEnemiesLoop ρ speedMult abil gy.2 dt [] en [] tr.1 k
  let enemiesF := blockFromSafeZone sz ((lp.1.filter fun e => e.alive) ++ lp.2.1)
  ({ v with enemies := enemiesF, lavaTrails := lp.2.2.1, geysers := gy.1,
            speedTimer := sp.1 },
   gy.2, lp.2.2.2)

/-! ## Glacial Peaks -/

/-- `makeFrostwyrm` (src/enemies.js lines 116-125). -/
def makeFrostwyrm (speedMult x y : ℝ) : Enemy :=
  { type := "frostwyrm", x := x, y := y
    radius := 24, speed := 30 * speedMult
    alive := true, frozen := true
    expandTimer := 0, expandRadius := 50
    activeEffects := [] }

/-- The square of the distance used by the ice-bullet aiming code
(src/enemies.js line 444), exposed as a definition because — unlike every
other normalised-direction site in the module — the division
`(bx / dist) * spd` on lines 449-450 uses it *raw*, without the `|| 1`
guard. -/
def iceBulletAimDist (e : Enemy) (pl : Player) : ℝ :=
  hyp (pl.x - e.x) (pl.y - e.y)

/-- One glacial enemy's step inside the `forEach` of `_updateGlacial`
(src/enemies.js lines 419-458): frozen-territory expansion plus the
*zone-shared* ice-bullet cooldown and firing.  Note `cd` is
`g.bulletCooldown`, a field of the zone state, not of the enemy. -/
def glacialEnemyStep (ρ : ℕ → ℝ) (dt : ℝ) (pl : Player) (e : Enemy) (cd : ℝ)
    (tiles : List FrozenTile) (bullets : List IceBullet) (k : ℕ) :
    Enemy × ℝ × List FrozenTile × List IceBullet × ℕ :=
  let e1 : Enemy := { e with expandTimer := e.expandTimer + dt }
  let ex :=
    if e1.expandTimer ≥ 1.5 then
      let ang := ρ k * Real.pi * 2
      let tile : FrozenTile :=
        ⟨e1.x + Real.cos ang * e1.expandRadius - 20,
         e1.y + Real.sin ang * e1.expandRadius - 20, 40, 40⟩
      let er := min (e1.expandRadius + 6) 220
      let x1 := e1.x + (ρ (k + 1) - 0.5) * 18
      let y1 := e1.y + (ρ (k + 2) - 0.5) * 18
      let x2 := max (zoneGlacial.x + e1.radius) (min (zoneGlacial.x + zoneGlacial.w - e1.radius) x1)
      let y2 := max (zoneGlacial.y + e1.radius) (min (zoneGlacial.y + zoneGlacial.h - e1.radius) y1)
      ({ e1 with expandTimer := 0, expandRadius := er, x := x2, y := y2 },
       tiles ++ [tile], k + 3)
    else (e1, tiles, k)
  let e2 := ex.1
  let cd1 := cd - dt
  if cd1 ≤ 0 then
    let bx := pl.x - e2.x
    let bY := pl.y - e2.y
    let d := iceBulletAimDist e2 pl
    if d ≤ 300 then
      (e2, 2.0, ex.2.1,
       bullets ++ [⟨e2.x, e2.y, bx / d * 210, bY / d * 210, 8, true⟩], ex.2.2)
    else (e2, 0.5, ex.2.1, bullets, ex.2.2)
  else (e2, cd1, ex.2.1, bullets, ex.2.2)

/-- The `forEach` over glacial enemies (src/enemies.js lines 419-458),
threading the shared cooldown, tile list, bullet list and random cursor.
Dead or frozen enemies are skipped (and do not decrement the cooldown). -/
def glacialEnemiesLoop (ρ : ℕ → ℝ) (dt : ℝ) (pl : Player) :
    List Enemy → ℝ → List FrozenTile → List IceBullet → ℕ →
    List Enemy × ℝ × List FrozenTile × List IceBullet × ℕ
  | [], cd, tiles, bullets, k => ([], cd, tiles, bullets, k)
  | e :: rest, cd, tiles, bullets, k =>
    if e.alive = false ∨ e.frozen = true then
      let r := glacialEnemiesLoop ρ dt pl rest cd tiles bullets k
      (e :: r.1, r.2)
    else
      let s := glacialEnemyStep ρ dt pl e cd tiles bullets k
      let r := glacialEnemiesLoop ρ dt pl rest s.2.1 s.2.2.1 s.2.2.2.1 s.2.2.2.2
      (s.1 :: r.1, r.2)

/-- One ice bullet's move-and-check step (src/enemies.js lines 461-474):
move, kill the player on contact (appending the permanent `dead` effect),
and despawn out of map bounds. -/
def iceBulletStep (dt : ℝ) (b : IceBullet) (pl : Player) : IceBullet × Player :=
  if b.alive = false then (b, pl)
  else
    let b1 : IceBullet := { b with x := b.x + b.vx * dt, y := b.y + b.vy * dt }
    let c :=
      if hyp (pl.x - b1.x) (pl.y - b1.y) ≤ pl.radius + b1.radius then
        ({ b1 with alive := false },
         { pl with activeEffects := pl.activeEffects ++ [⟨"dead", none, 1⟩] })
      else (b1, pl)
    let b3 := if c.1.x < 0 ∨ c.1.x > MAP_W ∨ c.1.y < 0 ∨ c.1.y > MAP_H then
        { c.1 with alive := false } else c.1
    (b3, c.2)

/-- Move all ice bullets and filter dead ones
(src/enemies.js lines 461-475). -/
def iceBulletsStep (dt : ℝ) (bullets : List IceBullet) (pl : Player) :
    List IceBullet × Player :=
  let r := bullets.foldl
    (fun acc b =>
      let s := iceBulletStep dt b acc.2
      (acc.1 ++ [s.1], s.2))
    ([], pl)
  (r.1.filter fun b => b.alive, r.2)

/-- A frozen tile's push-out of the player
(src/enemies.js lines 478-494): resolve along the axis of minimal
penetration. -/
def frozenTilePush (t : FrozenTile) (pl : Player) : Player :=
  if pl.x > t.x - pl.radius ∧ pl.x < t.x + t.w + pl.radius ∧
     pl.y > t.y - pl.radius ∧ pl.y < t.y + t.h + pl.radius then
    let cx := pl.x - (t.x + t.w / 2)
    let cy := pl.y - (t.y + t.h / 2)
    let overlapX := t.w / 2 + pl.radius - |cx|
    let overlapY := t.h / 2 + pl.radius - |cy|
    if overlapX > 0 ∧ overlapY > 0 then
      if overlapX < overlapY then
        { pl with x := pl.x + overlapX * (if cx < 0 then -1 else 1) }
      else
        { pl with y := pl.y + overlapY * (if cy < 0 then -1 else 1) }
    else pl
  else pl

/-- The glacial egg's thaw logic (src/enemies.js lines 496-506): dwell
within `radius + 30` accumulates the thaw timer toward `thawRequired`;
leaving decays it at half rate; nothing happens once collected. -/
def glacialEggStep (dt : ℝ) (pl : Player) (egg : GlacialEgg) : GlacialEgg :=
  if egg.collected = true then egg
  else
    if hyp (pl.x - egg.x) (pl.y - egg.y) ≤ pl.radius + 30 then
      let t := egg.thawTimer + dt
      if t ≥ egg.thawRequired then { egg with thawTimer := t, collected := true }
      else { egg with thawTimer := t }
    else { egg with thawTimer := max 0 (egg.thawTimer - dt * 0.5) }

/-- `_updateGlacial` (src/enemies.js lines 413-509). -/
def updateGlacial (ρ : ℕ → ℝ) (k : ℕ) (sz : SafeZone) (dt : ℝ) (pl : Player)
    (g : GlacialState) : GlacialState × Player × ℕ :=
  let en1 := tickEffects g.enemies dt
  let lp := glacialEnemiesLoop ρ dt pl en1 g.bulletCooldown g.frozenTiles g.iceBullets k
  let en2 := lp.1
  let cd1 := lp.2.1
  let tiles1 := lp.2.2.1
  let bs := iceBulletsStep dt lp.2.2.2.1 pl
  let pl2 := tiles1.foldl (fun p t => frozenTilePush t p) bs.2
  let egg1 := glacialEggStep dt pl2 g.egg
  ({ g with enemies := blockFromSafeZone sz en2, frozenTiles := tiles1,
            iceBullets := bs.1, bulletCooldown := cd1, egg := egg1 },
   pl2, lp.2.2.2.2)

/-! ## Ancient Canopy -/

/-- `makeThornwyrm` (src/enemies.js lines 127-138). -/
def makeThornwyrm (speedMult teleportRange x y : ℝ) : Enemy :=
  { type := "thornwyrm", x := x, y := y
    radius := 16, speed := 80 * speedMult
    alive := true, frozen := true
    visible := false, lunging := false
    lungeVx := 0, lungeVy := 0
    teleportRange := teleportRange
    activeEffects := [] }

/-- `_spawnThornwyrm` (src/enemies.js lines 201-210): spawn one thornwyrm
at a random in-zone position unless the zone is at the 6-enemy cap; it is
frozen exactly when the player has not yet moved. -/
def spawnThornwyrm (ρ : ℕ → ℝ) (k : ℕ) (playerMoved : Bool) (speedMult teleportRange : ℝ)
    (enemies : List Enemy) : List Enemy × ℕ :=
  if aliveCount enemies ≥ MAX_PER_ZONE then (enemies, k)
  else
    let tw := makeThornwyrm speedMult teleportRange
      (zoneCanopy.x + 120 + ρ k * (zoneCanopy.w - 240))
      (zoneCanopy.y + 120 + ρ (k + 1) * (zoneCanopy.h - 240))
    (enemies ++ [{ tw with frozen := !playerMoved }], k + 2)

/-- `_addCanopyObstacles` (src/enemies.js lines 212-221). -/
def addCanopyObstacles (ρ : ℕ → ℝ) : ℕ → ℕ → List CanopyObstacle → List CanopyObstacle × ℕ
  | k, 0, obs => (obs, k)
  | k, n + 1, obs =>
    let o : CanopyObstacle :=
      ⟨zoneCanopy.x + 80 + ρ k * (zoneCanopy.w - 160),
       zoneCanopy.y + 80 + ρ (k + 1) * (zoneCanopy.h - 160),
       35 + ρ (k + 2) * 25⟩
    addCanopyObstacles ρ (k + 3) n (obs ++ [o])

/-- `_assignCanopyEgg` (src/enemies.js lines 223-230): pick a random host
obstacle and snap the egg onto it. -/
def assignCanopyEgg (ρ : ℕ → ℝ) (k : ℕ) (obs : List CanopyObstacle) (egg : CanopyEgg) :
    CanopyEgg × ℕ :=
  if obs.length = 0 then (egg, k)
  else
    let idx := (⌊ρ k * (obs.length : ℝ)⌋).toNat
    let host := obs.getD idx ⟨0, 0, 0⟩
    ({ egg with host := some idx, x := host.x, y := host.y }, k + 1)

/-- The per-frame random jolt of the obstacles
(src/enemies.js lines 542-548), applied to each obstacle in order with two
draws each. -/
def joltObstacles (ρ : ℕ → ℝ) : ℕ → List CanopyObstacle → List CanopyObstacle × ℕ
  | k, [] => ([], k)
  | k, o :: rest =>
    let x1 := max (zoneCanopy.x + o.r)
      (min (zoneCanopy.x + zoneCanopy.w - o.r) (o.x + (ρ k - 0.5) * 70))
    let y1 := max (zoneCanopy.y + o.r)
      (min (zoneCanopy.y + zoneCanopy.h - o.r) (o.y + (ρ (k + 1) - 0.5) * 70))
    let r := joltObstacles ρ (k + 2) rest
    (⟨x1, y1, o.r⟩ :: r.1, r.2)

/-- One canopy enemy's behaviour step (src/enemies.js lines 552-589):
reveal-and-lunge at 150 px, fixed lunge vector, teleport when the player
escapes beyond `teleportRange`, revert to chase after the lunge, and clamp
to zone bounds. -/
def canopyEnemyStep (dt : ℝ) (pl : Player) (e : Enemy) : Enemy :=
  if e.alive = false ∨ e.frozen = true then e
  else
    let dx := pl.x - e.x
    let dy := pl.y - e.y
    let d := orOne (hyp dx dy)
    let e1 :=
      if e.visible = false ∧ d ≤ 150 then
        let ls := e.speed * 2.5
        { e with visible := true, lunging := true
                 lungeVx := dx / d * ls, lungeVy := dy / d * ls }
      else e
    let e2 :=
      if e1.lunging = true then
        let ea : Enemy := { e1 with x := e1.x + e1.lungeVx * dt, y := e1.y + e1.lungeVy * dt }
        let dx2 := pl.x - ea.x
        let dy2 := pl.y - ea.y
        let eb := if hyp dx2 dy2 ≤ ea.radius + pl.radius + 8 then
            { ea with lunging := false } else ea
        if hyp dx2 dy2 > eb.teleportRange then
          let ang := atan2 dy2 dx2
          { eb with
            x := pl.x - Real.cos ang * (eb.teleportRange * 0.75)
            y := pl.y - Real.sin ang * (eb.teleportRange * 0.75) }
        else eb
      else if e1.visible = true then chasePlayer e1 pl dt
      else e1
    { e2 with
      x := max (zoneCanopy.x + e2.radius) (min (zoneCanopy.x + zoneCanopy.w - e2.radius) e2.x)
      y := max (zoneCanopy.y + e2.radius) (min (zoneCanopy.y + zoneCanopy.h - e2.radius) e2.y) }

/-- The canopy egg sync-and-collect step (src/enemies.js lines 592-601):
while uncollected and hosted, follow the host obstacle, become visible
within 100 px, and collect on contact within `player.radius + 18`. -/
def canopyEggStep (pl : Player) (obs : List CanopyObstacle) (egg : CanopyEgg) : CanopyEgg :=
  if egg.collected = false ∧ egg.host ≠ none then
    match egg.host with
    | some idx =>
      let host := obs.getD idx ⟨0, 0, 0⟩
      let ex := pl.x - host.x
      let ey := pl.y - host.y
      let vis : Prop := hyp ex ey ≤ 100
      let eggV : CanopyEgg := { egg with x := host.x, y := host.y, visible := decide vis }
      if vis ∧ hyp ex ey ≤ pl.radius + 18 then { eggV with collected := true } else eggV
    | none => egg
  else egg

/-- `_updateCanopy` (src/enemies.js lines 513-604).  The canopy never
mutates the player, so only the state and random cursor are returned. -/
def updateCanopy (ρ : ℕ → ℝ) (k : ℕ) (sz : SafeZone) (dt : ℝ) (playerMoved : Bool)
    (speedMult : ℝ) (pl : Player) (c : CanopyState) : CanopyState × ℕ :=
  let playerInCanopy := inZone pl.x pl.y zoneCanopy
  let mt := c.multiplyTimer + dt
  let m :=
    if ¬ playerInCanopy ∧ mt ≥ 10 then
      let s := spawnThornwyrm ρ k playerMoved speedMult c.teleportRange c.enemies
      ((0 : ℝ), s.1, s.2)
    else (mt, c.enemies, k)
  let tt := c.teleportTimer + dt
  let tp :=
    if tt ≥ 5 then
      let trng := c.teleportRange + 50
      ((0 : ℝ), trng, m.2.1.map fun e => { e with teleportRange := trng })
    else (tt, c.teleportRange, m.2.1)
  let et := c.escalateTimer + dt
  let es :=
    if et ≥ 5 then
      let w := min (c.escalateWave + 1) 3
      let ao := addCanopyObstacles ρ m.2.2 w c.obstacles
      let ae := if c.egg.host = none then assignCanopyEgg ρ ao.2 ao.1 c.egg
        else (c.egg, ao.2)
      ((0 : ℝ), w, ao.1, ae.1, ae.2)
    else (et, c.escalateWave, c.obstacles, c.egg, m.2.2)
  let jo :=
    if ρ es.2.2.2.2 < dt * 0.8 then joltObstacles ρ (es.2.2.2.2 + 1) es.2.2.1
    else (es.2.2.1, es.2.2.2.2 + 1)
  let en1 := tickEffects tp.2.2 dt
  let en2 := en1.map (canopyEnemyStep dt pl)
  let egg1 := canopyEggStep pl jo.1 es.2.2.2.1
  ({ c with enemies := blockFromSafeZone sz en2, obstacles := jo.1
            multiplyTimer := m.1, teleportTimer := tp.1, teleportRange := tp.2.1
            escalateTimer := es.1, escalateWave := es.2.1, egg := egg1 },
   jo.2)

/-! ## Sunken Reef -/

/-- `makeTidewyrm` (src/enemies.js lines 140-149).  (`waveOffset || 0` is
the identity on numbers with 0 for 0, i.e. the identity.) -/
def makeTidewyrm (speedMult x y waveOffset : ℝ) : Enemy :=
  { type := "tidewyrm", x := x, y := y
    radius := 14, speed := 70 * speedMult
    alive := true, frozen := true
    waveOffset := waveOffset
    activeEffects := [] }

/-- The shared school-formation target for the `i`-th of `n` alive
unfrozen tidewyrms (src/enemies.js lines 640-660): a primary sweep ellipse
plus harmonic layers gated by the wave-complexity tier. -/
def reefWaveTarget (z : Rect) (complexity : ℕ) (phase : ℝ) (i n : ℕ) : ℝ × ℝ :=
  let freq := 0.8 + (complexity : ℝ) * 0.15
  let tx := z.x + z.w / 2 + Real.cos (phase * freq) * (z.w * 0.36)
  let ty := z.y + z.h / 2 +
    Real.sin (phase * freq + ((i : ℝ) / max (n : ℝ) 1) * Real.pi * 2) * (z.h * 0.36)
  let a := if 2 ≤ complexity then
      (tx + Real.sin (phase * 2.3 + (i : ℝ)) * 80, ty + Real.cos (phase * 1.7 + (i : ℝ)) * 80)
    else (tx, ty)
  let b := if 3 ≤ complexity then
      (a.1 + Real.cos (phase * 3.1) * 45, a.2 + Real.sin (phase * 2.9) * 45)
    else a
  if 4 ≤ complexity then
    (b.1 + Real.sin (phase * 4.2 + (i : ℝ) * 0.5) * 30,
     b.2 + Real.cos (phase * 3.8 - (i : ℝ) * 0.5) * 30)
  else b

/-- The coordinated school movement (src/enemies.js lines 638-668): each
alive unfrozen enemy (indexed by its position `i` among those, with `n`
their total number) seeks its formation target at its own speed (with the
`|| 1` guard) and is clamped to zone bounds; others are untouched. -/
def reefMoveEnemies (z : Rect) (complexity : ℕ) (phase dt : ℝ) (n : ℕ) :
    List Enemy → ℕ → List Enemy
  | [], _ => []
  | e :: rest, i =>
    if e.alive = true ∧ e.frozen = false then
      let t := reefWaveTarget z complexity (phase + e.waveOffset) i n
      let dx := t.1 - e.x
      let dy := t.2 - e.y
      let d := orOne (hyp dx dy)
      let x1 := e.x + dx / d * e.speed * dt
      let y1 := e.y + dy / d * e.speed * dt
      { e with
        x := max (z.x + e.radius) (min (z.x + z.w - e.radius) x1)
        y := max (z.y + e.radius) (min (z.y + z.h - e.radius) y1) } ::
        reefMoveEnemies z complexity phase dt n rest (i + 1)
    else e :: reefMoveEnemies z complexity phase dt n rest i

/-- One bouncing obstacle's step (src/enemies.js lines 671-684): move,
reflect off zone walls, then knock back the player and every alive enemy
within `radius + obstacleRadius` by a flat 40 px. -/
def reefObstacleStep (dt : ℝ) (z : Rect) (o : ReefObstacle) (pl : Player)
    (enemies : List Enemy) : ReefObstacle × Player × List Enemy :=
  let o1 : ReefObstacle := { o with x := o.x + o.vx * dt, y := o.y + o.vy * dt }
  let o2 := if o1.x - o1.r < z.x then { o1 with x := z.x + o1.r, vx := |o1.vx| } else o1
  let o3 := if o2.x + o2.r > z.x + z.w then { o2 with x := z.x + z.w - o2.r, vx := -|o2.vx| } else o2
  let o4 := if o3.y - o3.r < z.y then { o3 with y := z.y + o3.r, vy := |o3.vy| } else o3
  let o5 := if o4.y + o4.r > z.y + z.h then { o4 with y := z.y + z.h - o4.r, vy := -|o4.vy| } else o4
  let pp := knockBack pl.x pl.y o5.x o5.y o5.r pl.radius 40
  let pl1 := { pl with x := pp.1, y := pp.2 }
  let ens := enemies.map fun e =>
    if e.alive = true then
      let ep := knockBack e.x e.y o5.x o5.y o5.r e.radius 40
      { e with x := ep.1, y := ep.2 }
    else e
  (o5, pl1, ens)

/-- The reef egg's drift-bounce-collect step (src/enemies.js 687-698). -/
def reefEggStep (dt : ℝ) (z : Rect) (pl : Player) (egg : ReefEgg) : ReefEgg :=
  if egg.collected = true then egg
  else
    let e1 : ReefEgg := { egg with x := egg.x + egg.vx * dt, y := egg.y + egg.vy * dt }
    let e2 := if e1.x < z.x + 20 then { e1 with x := z.x + 20, vx := |e1.vx| } else e1
    let e3 := if e2.x > z.x + z.w - 20 then { e2 with x := z.x + z.w - 20, vx := -|e2.vx| } else e2
    let e4 := if e3.y < z.y + 20 then { e3 with y := z.y + 20, vy := |e3.vy| } else e3
    let e5 := if e4.y > z.y + z.h - 20 then { e4 with y := z.y + z.h - 20, vy := -|e4.vy| } else e4
    if hyp (pl.x - e5.x) (pl.y - e5.y) ≤ pl.radius + 18 then { e5 with collected := true }
    else e5

/-- `_updateReef` (src/enemies.js lines 608-701). -/
def updateReef (ρ : ℕ → ℝ) (k : ℕ) (sz : SafeZone) (dt : ℝ) (pl : Player)
    (speedMult : ℝ) (r : ReefState) : ReefState × Player × ℕ :=
  let z := zoneReef
  let mt := r.multiplyTimer + dt
  let m :=
    if mt ≥ 10 then
      if aliveCount r.enemies < MAX_PER_ZONE then
        let tw := makeTidewyrm speedMult
          (z.x + 150 + ρ k * (z.w - 300))
          (z.y + 150 + ρ (k + 1) * (z.h - 300))
          (ρ (k + 2) * Real.pi * 2)
        ((0 : ℝ), r.enemies ++ [{ tw with frozen := false }], k + 3)
      else ((0 : ℝ), r.enemies, k)
    else (mt, r.enemies, k)
  let wt := r.waveTimer + dt
  let w := if wt ≥ 5 then ((0 : ℝ), min (r.waveComplexity + 1) 4) else (wt, r.waveComplexity)
  let phase1 := r.wavePhase + dt
  let en1 := tickEffects m.2.1 dt
  let n := (en1.filter fun e => e.alive && !e.frozen).length
  let en2 := reefMoveEnemies z w.2 phase1 dt n en1 0
  let ob := r.obstacles.foldl
    (fun acc o =>
      let s := reefObstacleStep dt z o acc.2.1 acc.2.2
      (acc.1 ++ [s.1], s.2.1, s.2.2))
    ([], pl, en2)
  let egg1 := reefEggStep dt z ob.2.1 r.egg
  ({ r with enemies := blockFromSafeZone sz ob.2.2, obstacles := ob.1
            multiplyTimer := m.1, waveTimer := w.1, waveComplexity := w.2
            wavePhase := phase1, egg := egg1 },
   ob.2.1, m.2.2)

/-! ## Global frame driver and initialization -/

/-- `_unfreezeAll` (src/enemies.js lines 301-305). -/
def unfreezeList (l : List Enemy) : List Enemy := l.map fun e => { e with frozen := false }

/-- `_unfreezeAll` applied to the whole state. -/
def unfreezeAll (st : SimState) : SimState :=
  { st with
    volcanic := { st.volcanic with enemies := unfreezeList st.volcanic.enemies }
    glacial := { st.glacial with enemies := unfreezeList st.glacial.enemies }
    canopy := { st.canopy with enemies := unfreezeList st.canopy.enemies }
    reef := { st.reef with enemies := unfreezeList st.reef.enemies } }

/-- `update` (src/enemies.js lines 268-299): accumulate time, detect the
first player movement (unfreezing everyone), detect an ability-use edge,
always update the safe zone, and — only once the player has moved — run
the four zone simulators in fixed order, threading the mutable player.
Returns the new state, the (possibly pushed) player, and the advanced
random cursor. -/
def update (ρ : ℕ → ℝ) (k : ℕ) (dt : ℝ) (st : SimState) (pl : Player) :
    SimState × Player × ℕ :=
  let st0 := { st with time := st.time + dt }
  let st1 :=
    if st0.playerMoved = false then
      let trig : Prop := st0.prevPX ≠ none ∧
        (st0.prevPX ≠ some pl.x ∨ st0.prevPY ≠ some pl.y)
      let stA := if trig then { unfreezeAll st0 with playerMoved := true } else st0
      { stA with prevPX := some pl.x, prevPY := some pl.y }
    else st0
  let abil := decide (st1.prevAbilityCooldown = 0 ∧ pl.abilityCooldown > 0)
  let st2 := { st1 with prevAbilityCooldown := pl.abilityCooldown }
  let sz1 := updateSafeZone st2.safeZone pl
  let r :=
    if st2.playerMoved = true then
      let v := updateVolcanic ρ k sz1 dt pl abil st2.speedMult st2.volcanic
      let g := updateGlacial ρ v.2.2 sz1 dt v.2.1 st2.glacial
      let c := updateCanopy ρ g.2.2 sz1 dt st2.playerMoved st2.speedMult g.2.1 st2.canopy
      let rf := updateReef ρ c.2 sz1 dt g.2.1 st2.speedMult st2.reef
      ({ st2 with safeZone := sz1, volcanic := v.1, glacial := g.1,
                  canopy := c.1, reef := rf.1 },
       rf.2.1, rf.2.2)
    else ({ st2 with safeZone := sz1 }, pl, k)
  let stR := r.1
  ({ stR with
     volcanic := { stR.volcanic with visualPhase := stR.volcanic.visualPhase + dt * 8 }
     reef := { stR.reef with visualPhase := stR.reef.visualPhase + dt * 1.5 }
     canopy := { stR.canopy with visualPhase := stR.canopy.visualPhase + dt * 3 } },
   r.2.1, r.2.2)

/-- Iterated frames: fold `update` over a list of `(dt, player)` inputs,
modelling a whole level's sequence of `update` calls with the player
driven externally between frames. -/
def updateIter (ρ : ℕ → ℝ) : List (ℝ × Player) → ℕ → SimState → SimState
  | [], _, st => st
  | f :: rest, k, st =>
    let r := update ρ k f.1 st f.2
    updateIter ρ rest r.2.2 r.1

/-- `resetState` (src/enemies.js lines 33-98). -/
def resetState (level : ℕ) : SimState :=
  { level := level
    speedMult := 1.25 ^ (level - 1)
    time := 0
    playerMoved := false
    prevPX := none, prevPY := none
    prevAbilityCooldown := 0
    safeZone :=
      { x := CENTER_X, y := CENTER_Y, radius := 120, uses := 0, maxUses := 3,
        active := true, playerWasInside := false }
    volcanic :=
      { enemies := [], lavaTrails := [], geysers := [], speedTimer := 0,
        visualPhase := 0, egg := ⟨250, 250, false⟩ }
    glacial :=
      { enemies := [], frozenTiles := [], iceBullets := [], bulletCooldown := 0,
        egg := ⟨1800, 250, false, 0, 2⟩ }
    canopy :=
      { enemies := [], obstacles := [], multiplyTimer := 0, teleportTimer := 0,
        teleportRange := 150, escalateTimer := 0, escalateWave := 0,
        visualPhase := 0, egg := ⟨0, 0, false, false, none⟩ }
    reef :=
      { enemies := [], obstacles := [], multiplyTimer := 0, waveTimer := 0,
        waveComplexity := 0, wavePhase := 0, visualPhase := 0,
        egg := ⟨0, 0, 0, 0, false⟩ } }

/-- `_initVolcanic` (src/enemies.js lines 161-175): one magmawyrm at the
zone centre and five geysers at fixed grid offsets with random initial
stagger (one draw each). -/
def initVolcanic (ρ : ℕ → ℝ) (k : ℕ) (speedMult : ℝ) (v : VolcanicState) :
    VolcanicState × ℕ :=
  let z := zoneVolcanic
  let mkG : ℝ × ℝ → ℕ → Geyser := fun pos j =>
    ⟨z.x + pos.1, z.y + pos.2, 28, ρ j * 5, false, 1.5⟩
  ({ v with
     enemies := v.enemies ++ [makeMagmawyrm speedMult (z.x + z.w / 2) (z.y + z.h / 2) 1 1]
     geysers := v.geysers ++
       [mkG (200, 200) k, mkG (700, 200) (k + 1), mkG (450, 450) (k + 2),
        mkG (200, 700) (k + 3), mkG (700, 700) (k + 4)] },
   k + 5)

/-- The six seed tiles of `_initGlacial` (src/enemies.js lines 183-190). -/
def glacialSeedTiles (fx fy : ℝ) : ℕ → List FrozenTile
  | 0 => []
  | i + 1 =>
    glacialSeedTiles fx fy i ++
      [⟨fx + Real.cos ((i : ℝ) / 6 * Real.pi * 2) * 50 - 20,
        fy + Real.sin ((i : ℝ) / 6 * Real.pi * 2) * 50 - 20, 40, 40⟩]

/-- `_initGlacial` (src/enemies.js lines 177-191): one frostwyrm at the
zone centre plus six seed tiles around it (no random draws). -/
def initGlacial (speedMult : ℝ) (g : GlacialState) : GlacialState :=
  let z := zoneGlacial
  let fw := makeFrostwyrm speedMult (z.x + z.w / 2) (z.y + z.h / 2)
  { g with enemies := g.enemies ++ [fw], frozenTiles := g.frozenTiles ++ glacialSeedTiles fw.x fw.y 6 }

/-- `_initCanopy` (src/enemies.js lines 193-199): two thornwyrm spawns,
five obstacles, and the egg-host assignment. -/
def initCanopy (ρ : ℕ → ℝ) (k : ℕ) (playerMoved : Bool) (speedMult : ℝ)
    (c : CanopyState) : CanopyState × ℕ :=
  let s1 := spawnThornwyrm ρ k playerMoved speedMult c.teleportRange c.enemies
  let s2 := spawnThornwyrm ρ s1.2 playerMoved speedMult c.teleportRange s1.1
  let ao := addCanopyObstacles ρ s2.2 5 c.obstacles
  let ae := assignCanopyEgg ρ ao.2 ao.1 c.egg
  ({ c with enemies := s2.1, obstacles := ao.1, egg := ae.1 }, ae.2)

/-- The three starting tidewyrms of `_initReef`
(src/enemies.js lines 236-242), with evenly offset wave phases. -/
def initReefEnemies (ρ : ℕ → ℝ) (speedMult : ℝ) : ℕ → ℕ → List Enemy × ℕ
  | k, 0 => ([], k)
  | k, i + 1 =>
    let z := zoneReef
    let r := initReefEnemies ρ speedMult k i
    (r.1 ++ [makeTidewyrm speedMult
        (z.x + 200 + ρ r.2 * (z.w - 400))
        (z.y + 200 + ρ (r.2 + 1) * (z.h - 400))
        ((i : ℝ) / 3 * Real.pi * 2)],
     r.2 + 2)

/-- The four starting bouncing obstacles of `_initReef`
(src/enemies.js lines 245-254). -/
def initReefObstacles (ρ : ℕ → ℝ) : ℕ → ℕ → List ReefObstacle × ℕ
  | k, 0 => ([], k)
  | k, j + 1 =>
    let z := zoneReef
    let r := initReefObstacles ρ k j
    let ang := ρ r.2 * Real.pi * 2
    (r.1 ++ [⟨z.x + 120 + ρ (r.2 + 1) * (z.w - 240),
              z.y + 120 + ρ (r.2 + 2) * (z.h - 240),
              Real.cos ang * 80, Real.sin ang * 80, 28⟩],
     r.2 + 3)

/-- `_initReef` (src/enemies.js lines 232-264). -/
def initReef (ρ : ℕ → ℝ) (k : ℕ) (speedMult : ℝ) (r : ReefState) : ReefState × ℕ :=
  let z := zoneReef
  let es := initReefEnemies ρ speedMult k 3
  let obs := initReefObstacles ρ es.2 4
  let ea := ρ obs.2 * Real.pi * 2
  let egg : ReefEgg :=
    ⟨z.x + 200 + ρ (obs.2 + 1) * (z.w - 400),
     z.y + 200 + ρ (obs.2 + 2) * (z.h - 400),
     Real.cos ea * 45, Real.sin ea * 45, false⟩
  ({ r with enemies := r.enemies ++ es.1, obstacles := r.obstacles ++ obs.1, egg := egg },
   obs.2 + 3)

/-- `init` (src/enemies.js lines 153-159). -/
def init (ρ : ℕ → ℝ) (k : ℕ) (level : ℕ) : SimState × ℕ :=
  let st := resetState level
  let v := initVolcanic ρ k st.speedMult st.volcanic
  let g := initGlacial st.speedMult st.glacial
  let c := initCanopy ρ v.2 st.playerMoved st.speedMult st.canopy
  let r := initReef ρ c.2 st.speedMult st.reef
  ({ st with volcanic := v.1, glacial := g, canopy := c.1, reef := r.1 }, r.2)

/-! ## Basic lemmas about the geometry helpers -/

theorem hyp_nonneg (dx dy : ℝ) : 0 ≤ hyp dx dy := Real.sqrt_nonneg _

theorem hyp_zero : hyp 0 0 = 0 := by simp [hyp]

/-- Evaluate `hyp` when the squared length is a known square. -/
theorem hyp_eq_of_sq {dx dy c : ℝ} (hc : 0 ≤ c) (h : dx * dx + dy * dy = c * c) :
    hyp dx dy = c := by
  rw [hyp, h, Real.sqrt_mul_self hc]

/-- `c ≤ hyp dx dy` from `c² ≤ dx² + dy²`. -/
theorem le_hyp_of_sq {dx dy c : ℝ} (h : c * c ≤ dx * dx + dy * dy) :
    c ≤ hyp dx dy := by
  have := Real.le_sqrt_of_sq_le (y := dx * dx + dy * dy) (x := c) (by nlinarith)
  simpa [hyp] using this

/-- `c < hyp dx dy` from `0 ≤ c` and `c² < dx² + dy²`. -/
theorem lt_hyp_of_sq {dx dy c : ℝ} (hc : 0 ≤ c) (h : c * c < dx * dx + dy * dy) :
    c < hyp dx dy := by
  have := (Real.lt_sqrt hc (y := dx * dx + dy * dy)).mpr (by nlinarith)
  simpa [hyp] using this

theorem not_hyp_lt_of_sq {dx dy c : ℝ} (h : c * c ≤ dx * dx + dy * dy) :
    ¬ hyp dx dy < c := not_lt.mpr (le_hyp_of_sq h)

theorem not_hyp_le_of_sq {dx dy c : ℝ} (hc : 0 ≤ c) (h : c * c < dx * dx + dy * dy) :
    ¬ hyp dx dy ≤ c := not_le.mpr (lt_hyp_of_sq hc h)

/-! ## C10 — a safe-zone use is consumed exactly on a strict outside→inside
transition -/

/-- **C10.**  While the safe zone is active, a use is consumed (use counter
incremented, radius shrunk by 20 %) exactly when the player's circle is
strictly entirely inside (`distance < radius − player.radius`) *and* the
`playerWasInside` flag records that the player was not inside on the
previous frame; in every other case (touching/overlapping the boundary, or
remaining inside) `uses` and `radius` are unchanged. -/
theorem c10_use_consumption (sz : SafeZone) (p : Player) (h : sz.active = true) :
    (updateSafeZone sz p).uses =
      (if hyp (p.x - sz.x) (p.y - sz.y) < sz.radius - p.radius ∧ sz.playerWasInside = false
       then sz.uses + 1 else sz.uses) ∧
    (updateSafeZone sz p).radius =
      (if hyp (p.x - sz.x) (p.y - sz.y) < sz.radius - p.radius ∧ sz.playerWasInside = false
       then sz.radius * 0.80 else sz.radius) := by
  by_cases hc : hyp (p.x - sz.x) (p.y - sz.y) < sz.radius - p.radius ∧
    sz.playerWasInside = false
  · simp [updateSafeZone, h, hc]
  · simp [updateSafeZone, h, hc]

/-- Concrete instantiation of `c10_use_consumption`: an active safe zone
with the player recorded as already inside. -/
theorem c10_use_consumption_witness :
    (⟨1000, 1000, 120, 0, 3, true, true⟩ : SafeZone).active = true ∧
    ((updateSafeZone ⟨1000, 1000, 120, 0, 3, true, true⟩ ⟨1000, 1000, 12, 0, []⟩).uses =
      (if hyp ((1000 : ℝ) - 1000) ((1000 : ℝ) - 1000) < (120 : ℝ) - 12 ∧ (true = false)
       then 0 + 1 else 0) ∧
     (updateSafeZone ⟨1000, 1000, 120, 0, 3, true, true⟩ ⟨1000, 1000, 12, 0, []⟩).radius =
      (if hyp ((1000 : ℝ) - 1000) ((1000 : ℝ) - 1000) < (120 : ℝ) - 12 ∧ (true = false)
       then (120 : ℝ) * 0.80 else 120)) :=
  ⟨rfl, c10_use_consumption ⟨1000, 1000, 120, 0, 3, true, true⟩ ⟨1000, 1000, 12, 0, []⟩ rfl⟩

/-! ## C7 — safe-zone monotonicity across frames -/

/-- One `_updateSafeZone` call: the radius never grows (and stays
non-negative), and an inactive zone stays inactive. -/
theorem updateSafeZone_step (sz : SafeZone) (p : Player) (h : 0 ≤ sz.radius) :
    (updateSafeZone sz p).radius ≤ sz.radius ∧ 0 ≤ (updateSafeZone sz p).radius ∧
    (sz.active = false → (updateSafeZone sz p).active = false) := by
  by_cases ha : sz.active = false
  · simp [updateSafeZone, ha]
    exact h
  · by_cases hc : hyp (p.x - sz.x) (p.y - sz.y) < sz.radius - p.radius ∧
      sz.playerWasInside = false
    · refine ⟨?_, ?_, ?_⟩ <;> simp [updateSafeZone, ha, hc]
      · nlinarith
      · nlinarith
    · refine ⟨?_, ?_, ?_⟩ <;> simp [updateSafeZone, ha, hc]
      exact h

/-- Within one frame, `update` touches the safe zone only through
`_updateSafeZone` (the zone simulators read it but never write it). -/
theorem update_safeZone (ρ : ℕ → ℝ) (k : ℕ) (dt : ℝ) (st : SimState) (pl : Player) :
    (update ρ k dt st pl).1.safeZone = updateSafeZone st.safeZone pl := by
  by_cases hm : st.playerMoved = false
  · by_cases ht : ({ st with time := st.time + dt } : SimState).prevPX ≠ none ∧
      (({ st with time := st.time + dt } : SimState).prevPX ≠ some pl.x ∨
       ({ st with time := st.time + dt } : SimState).prevPY ≠ some pl.y)
    · simp [update, unfreezeAll, hm, ht]
    · simp [update, unfreezeAll, hm, ht]
  · simp [update, unfreezeAll, hm]

/-- **C7.**  Across any sequence of `update` calls within one level (no
intervening `init`), the safe zone's radius is non-increasing, and once
`active = false` it remains false. -/
theorem c7_safezone_monotone (ρ : ℕ → ℝ) (frames : List (ℝ × Player)) (k : ℕ)
    (st : SimState) (h : 0 ≤ st.safeZone.radius) :
    (updateIter ρ frames k st).safeZone.radius ≤ st.safeZone.radius ∧
    (st.safeZone.active = false → (updateIter ρ frames k st).safeZone.active = false) := by
  induction frames generalizing k st with
  | nil => exact ⟨le_refl _, fun h2 => h2⟩
  | cons f rest ih =>
    have he : (update ρ k f.1 st f.2).1.safeZone = updateSafeZone st.safeZone f.2 :=
      update_safeZone ρ k f.1 st f.2
    have hs := updateSafeZone_step st.safeZone f.2 h
    have ih' := ih (update ρ k f.1 st f.2).2.2 (update ρ k f.1 st f.2).1
      (by rw [he]; exact hs.2.1)
    refine ⟨?_, ?_⟩
    · exact le_trans ih'.1 (by rw [he]; exact hs.1)
    · intro hf
      exact ih'.2 (by rw [he]; exact hs.2.2 hf)

/-- Concrete instantiation of `c7_safezone_monotone` on the freshly reset
level-1 state and one frame. -/
theorem c7_safezone_monotone_witness :
    (0 : ℝ) ≤ (resetState 1).safeZone.radius ∧
    ((updateIter (fun _ => 0.5) [(1, ⟨500, 500, 12, 0, []⟩)] 0 (resetState 1)).safeZone.radius ≤
        (resetState 1).safeZone.radius ∧
     ((resetState 1).safeZone.active = false →
        (updateIter (fun _ => 0.5) [(1, ⟨500, 500, 12, 0, []⟩)] 0
          (resetState 1)).safeZone.active = false)) :=
  ⟨by norm_num [resetState],
   c7_safezone_monotone (fun _ => 0.5) [(1, ⟨500, 500, 12, 0, []⟩)] 0 (resetState 1)
     (by norm_num [resetState])⟩

/-! ## C8 — the three-entry shrink scenario -/

/-- **C8.**  Scenario E: starting from `radius = 120`, `uses = 0`,
`maxUses = 3`, `active = true`, three consecutive outside→inside
transitions (player at the centre, out at `(2000, 1000)`, back in, out,
back in) shrink the radius to `120 × 0.8³ = 61.44` and deactivate the zone
at the third entry. -/
theorem c8_safezone_scenario :
    (updateSafeZone (updateSafeZone (updateSafeZone (updateSafeZone (updateSafeZone
        ⟨1000, 1000, 120, 0, 3, true, false⟩ ⟨1000, 1000, 12, 0, []⟩)
        ⟨2000, 1000, 12, 0, []⟩) ⟨1000, 1000, 12, 0, []⟩)
        ⟨2000, 1000, 12, 0, []⟩) ⟨1000, 1000, 12, 0, []⟩).radius = 61.44 ∧
    (updateSafeZone (updateSafeZone (updateSafeZone (updateSafeZone (updateSafeZone
        ⟨1000, 1000, 120, 0, 3, true, false⟩ ⟨1000, 1000, 12, 0, []⟩)
        ⟨2000, 1000, 12, 0, []⟩) ⟨1000, 1000, 12, 0, []⟩)
        ⟨2000, 1000, 12, 0, []⟩) ⟨1000, 1000, 12, 0, []⟩).active = false ∧
    (updateSafeZone (updateSafeZone (updateSafeZone (updateSafeZone (updateSafeZone
        ⟨1000, 1000, 120, 0, 3, true, false⟩ ⟨1000, 1000, 12, 0, []⟩)
        ⟨2000, 1000, 12, 0, []⟩) ⟨1000, 1000, 12, 0, []⟩)
        ⟨2000, 1000, 12, 0, []⟩) ⟨1000, 1000, 12, 0, []⟩).uses = 3 := by
  have hout : hyp (1000 : ℝ) (0 : ℝ) = 1000 :=
    hyp_eq_of_sq (by norm_num) (by norm_num)
  have h1 : updateSafeZone ⟨1000, 1000, 120, 0, 3, true, false⟩ ⟨1000, 1000, 12, 0, []⟩ =
      ⟨1000, 1000, 96, 1, 3, true, true⟩ := by
    norm_num [updateSafeZone, hyp_zero, SafeZone.mk.injEq, decide_eq_true_eq]
  have h2 : updateSafeZone ⟨1000, 1000, 96, 1, 3, true, true⟩ ⟨2000, 1000, 12, 0, []⟩ =
      ⟨1000, 1000, 96, 1, 3, true, false⟩ := by
    norm_num [updateSafeZone, hout, SafeZone.mk.injEq, decide_eq_false_iff_not]
  have h3 : updateSafeZone ⟨1000, 1000, 96, 1, 3, true, false⟩ ⟨1000, 1000, 12, 0, []⟩ =
      ⟨1000, 1000, 76.8, 2, 3, true, true⟩ := by
    norm_num [updateSafeZone, hyp_zero, SafeZone.mk.injEq, decide_eq_true_eq]
  have h4 : updateSafeZone ⟨1000, 1000, 76.8, 2, 3, true, true⟩ ⟨2000, 1000, 12, 0, []⟩ =
      ⟨1000, 1000, 76.8, 2, 3, true, false⟩ := by
    norm_num [updateSafeZone, hout, SafeZone.mk.injEq, decide_eq_false_iff_not]
  have h5 : updateSafeZone ⟨1000, 1000, 76.8, 2, 3, true, false⟩ ⟨1000, 1000, 12, 0, []⟩ =
      ⟨1000, 1000, 61.44, 3, 3, false, true⟩ := by
    norm_num [updateSafeZone, hyp_zero, SafeZone.mk.injEq, decide_eq_true_eq]
  rw [h1, h2, h3, h4, h5]
  exact ⟨rfl, rfl, rfl⟩

/-! ## C9 — egg collection is terminal/idempotent -/

theorem glacialEggStep_collected (dt : ℝ) (pl : Player) (egg : GlacialEgg)
    (h : egg.collected = true) : glacialEggStep dt pl egg = egg := by
  simp [glacialEggStep, h]

theorem canopyEggStep_collected (pl : Player) (obs : List CanopyObstacle)
    (egg : CanopyEgg) (h : egg.collected = true) : canopyEggStep pl obs egg = egg := by
  simp [canopyEggStep, h]

theorem reefEggStep_collected (dt : ℝ) (z : Rect) (pl : Player) (egg : ReefEgg)
    (h : egg.collected = true) : reefEggStep dt z pl egg = egg := by
  simp [reefEggStep, h]

/-- **C9.**  Once an egg is collected, a further zone update leaves it
entirely unchanged: the volcanic egg is never touched by `_updateVolcanic`
at all, and the glacial/canopy/reef collection logic is guarded by
`!egg.collected`, so a collected egg's position, timers, visibility and
velocity are all preserved and no collection side effect can re-trigger.
(For the canopy zone the egg must have a host obstacle, which `init`
establishes and nothing ever clears; without it the escalation step could
re-assign a host and move even a collected egg.) -/
theorem c9_egg_idempotent (ρ : ℕ → ℝ) (k : ℕ) (sz : SafeZone) (dt : ℝ) (pl : Player)
    (abil playerMoved : Bool) (speedMult : ℝ)
    (v : VolcanicState) (g : GlacialState) (c : CanopyState) (r : ReefState)
    (hg : g.egg.collected = true) (hc1 : c.egg.collected = true)
    (hc2 : c.egg.host ≠ none) (hr : r.egg.collected = true) :
    (updateVolcanic ρ k sz dt pl abil speedMult v).1.egg = v.egg ∧
    (updateGlacial ρ k sz dt pl g).1.egg = g.egg ∧
    (updateCanopy ρ k sz dt playerMoved speedMult pl c).1.egg = c.egg ∧
    (updateReef ρ k sz dt pl speedMult r).1.egg = r.egg := by
  refine ⟨rfl, ?_, ?_, ?_⟩
  · simp [updateGlacial, glacialEggStep_collected _ _ _ hg]
  · by_cases het : c.escalateTimer + dt ≥ 5
    · simp [updateCanopy, het, hc2, canopyEggStep_collected _ _ _ hc1]
    · simp [updateCanopy, het, canopyEggStep_collected _ _ _ hc1]
  · simp [updateReef, reefEggStep_collected _ _ _ _ hr]

/-- Concrete instantiation of `c9_egg_idempotent`: all four eggs collected
(canopy egg hosted by obstacle 0). -/
theorem c9_egg_idempotent_witness :
    ((⟨[], [], [], 0, ⟨1800, 250, true, 0, 2⟩⟩ : GlacialState).egg.collected = true ∧
     (⟨[], [⟨1500, 1500, 40⟩], 0, 0, 150, 0, 0, 0, ⟨1500, 1500, true, false, some 0⟩⟩ :
        CanopyState).egg.collected = true ∧
     (⟨[], [⟨1500, 1500, 40⟩], 0, 0, 150, 0, 0, 0, ⟨1500, 1500, true, false, some 0⟩⟩ :
        CanopyState).egg.host ≠ none ∧
     (⟨[], [], 0, 0, 0, 0, 0, ⟨500, 1500, 45, 0, true⟩⟩ : ReefState).egg.collected = true) ∧
    ((updateVolcanic (fun _ => 0.5) 0 ⟨1000, 1000, 120, 0, 3, true, false⟩ 0.1
        ⟨1000, 1000, 12, 0, []⟩ false 1
        ⟨[], [], [], 0, 0, ⟨250, 250, true⟩⟩).1.egg = ⟨250, 250, true⟩ ∧
     (updateGlacial (fun _ => 0.5) 0 ⟨1000, 1000, 120, 0, 3, true, false⟩ 0.1
        ⟨1000, 1000, 12, 0, []⟩
        ⟨[], [], [], 0, ⟨1800, 250, true, 0, 2⟩⟩).1.egg = ⟨1800, 250, true, 0, 2⟩ ∧
     (updateCanopy (fun _ => 0.5) 0 ⟨1000, 1000, 120, 0, 3, true, false⟩ 0.1 true 1
        ⟨1000, 1000, 12, 0, []⟩
        ⟨[], [⟨1500, 1500, 40⟩], 0, 0, 150, 0, 0, 0,
         ⟨1500, 1500, true, false, some 0⟩⟩).1.egg = ⟨1500, 1500, true, false, some 0⟩ ∧
     (updateReef (fun _ => 0.5) 0 ⟨1000, 1000, 120, 0, 3, true, false⟩ 0.1
        ⟨1000, 1000, 12, 0, []⟩ 1
        ⟨[], [], 0, 0, 0, 0, 0, ⟨500, 1500, 45, 0, true⟩⟩).1.egg = ⟨500, 1500, 45, 0, true⟩) :=
  ⟨⟨rfl, rfl, by simp, rfl⟩,
   c9_egg_idempotent (fun _ => 0.5) 0 ⟨1000, 1000, 120, 0, 3, true, false⟩ 0.1
     ⟨1000, 1000, 12, 0, []⟩ false true 1
     ⟨[], [], [], 0, 0, ⟨250, 250, true⟩⟩
     ⟨[], [], [], 0, ⟨1800, 250, true, 0, 2⟩⟩
     ⟨[], [⟨1500, 1500, 40⟩], 0, 0, 150, 0, 0, 0, ⟨1500, 1500, true, false, some 0⟩⟩
     ⟨[], [], 0, 0, 0, 0, 0, ⟨500, 1500, 45, 0, true⟩⟩
     rfl rfl (by simp) rfl⟩

/-! ## C4 — the freeze gate: before the first player movement the zone
simulators are skipped entirely -/

/-- A realistic pre-movement state (one enemy per zone population as after
`init`, a geyser mid-cycle at `timer = 1`, one lava trail with 2 s of life
left, the player stationary at `(500, 500)`). -/
def stC4 : SimState :=
  { level := 1, speedMult := 1, time := 3, playerMoved := false
    prevPX := some 500, prevPY := some 500, prevAbilityCooldown := 0
    safeZone := ⟨1000, 1000, 120, 0, 3, true, false⟩
    volcanic :=
      { enemies := [makeMagmawyrm 1 500 500 1 1]
        lavaTrails := [⟨480, 480, 18, 2, 5⟩]
        geysers := [⟨250, 250, 28, 1, false, 1.5⟩]
        speedTimer := 3, visualPhase := 0, egg := ⟨250, 250, false⟩ }
    glacial :=
      { enemies := [makeFrostwyrm 1 1500 500], frozenTiles := [], iceBullets := []
        bulletCooldown := 0, egg := ⟨1800, 250, false, 0, 2⟩ }
    canopy :=
      { enemies := [makeThornwyrm 1 150 1500 1500], obstacles := [⟨1200, 1200, 40⟩]
        multiplyTimer := 3, teleportTimer := 3, teleportRange := 150
        escalateTimer := 3, escalateWave := 0, visualPhase := 0
        egg := ⟨1200, 1200, false, false, some 0⟩ }
    reef :=
      { enemies := [makeTidewyrm 1 500 1500 0], obstacles := [⟨700, 1700, 80, 0, 28⟩]
        multiplyTimer := 3, waveTimer := 3, waveComplexity := 0, wavePhase := 3
        visualPhase := 0, egg := ⟨300, 1300, 45, 0, false⟩ } }

/-- **C4 (counterexample).**  The claim says the geyser and lava-trail
timers still advance by `dt` on frames before `playerMovedFlag` becomes
true.  In the code those timers live inside `_updateVolcanic`, which is
skipped entirely before the flag is set: after an `update` with `dt = 1`
on `stC4` the geyser timer is still `1` (the claim predicts `2`) and the
lava trail's remaining life is still `2` (the claim predicts `1`).  Enemy
positions are indeed unchanged. -/
theorem c4_freeze_gate_counterexample :
    ((update (fun _ => 0.5) 0 1 stC4 ⟨500, 500, 12, 0, []⟩).1.volcanic.geysers.map
        Geyser.timer = [1] ∧
     (update (fun _ => 0.5) 0 1 stC4 ⟨500, 500, 12, 0, []⟩).1.volcanic.lavaTrails.map
        LavaTrail.life = [2] ∧
     (update (fun _ => 0.5) 0 1 stC4 ⟨500, 500, 12, 0, []⟩).1.volcanic.enemies =
        stC4.volcanic.enemies) ∧
    ¬ ((update (fun _ => 0.5) 0 1 stC4 ⟨500, 500, 12, 0, []⟩).1.volcanic.geysers.map
        Geyser.timer = [1 + 1] ∧
       (update (fun _ => 0.5) 0 1 stC4 ⟨500, 500, 12, 0, []⟩).1.volcanic.lavaTrails.map
        LavaTrail.life = [2 - 1]) := by
  have hout : ¬ hyp ((500 : ℝ) - 1000) ((500 : ℝ) - 1000) < 120 - 12 := by
    have h108 : (108 : ℝ) ≤ hyp ((500 : ℝ) - 1000) ((500 : ℝ) - 1000) :=
      le_hyp_of_sq (by norm_num)
    linarith
  have he : (update (fun _ => 0.5) 0 1 stC4 ⟨500, 500, 12, 0, []⟩).1.volcanic =
      { stC4.volcanic with visualPhase := stC4.volcanic.visualPhase + 1 * 8 } := by
    simp [update, stC4, updateSafeZone, hout]
  rw [he]
  refine ⟨⟨?_, ?_, rfl⟩, ?_⟩ <;> simp [stC4]

/-- **C4 (amended).**  On every frame on which `playerMovedFlag` is false
and stays false (first frame, or a stationary player), no enemy's `x`/`y`
changes — in fact the entire dynamic zone state is untouched: enemy lists,
hazard lists and *all zone timers* (geyser timers, lava-trail lifetimes,
spawn/escalation timers) are left exactly as they were.  Only `time`, the
rendering-only visual phases, the movement/ability edge-detection fields
and the safe zone advance on such frames. -/
theorem c4_freeze_gate_amended (ρ : ℕ → ℝ) (k : ℕ) (dt : ℝ) (st : SimState) (pl : Player)
    (h1 : st.playerMoved = false)
    (h2 : st.prevPX = none ∨ (st.prevPX = some pl.x ∧ st.prevPY = some pl.y)) :
    (update ρ k dt st pl).1.volcanic =
      { st.volcanic with visualPhase := st.volcanic.visualPhase + dt * 8 } ∧
    (update ρ k dt st pl).1.glacial = st.glacial ∧
    (update ρ k dt st pl).1.canopy =
      { st.canopy with visualPhase := st.canopy.visualPhase + dt * 3 } ∧
    (update ρ k dt st pl).1.reef =
      { st.reef with visualPhase := st.reef.visualPhase + dt * 1.5 } ∧
    (update ρ k dt st pl).1.playerMoved = false ∧
    (update ρ k dt st pl).2.1 = pl := by
  have htrig : ¬ (({ st with time := st.time + dt } : SimState).prevPX ≠ none ∧
      (({ st with time := st.time + dt } : SimState).prevPX ≠ some pl.x ∨
       ({ st with time := st.time + dt } : SimState).prevPY ≠ some pl.y)) := by
    rcases h2 with h | ⟨hx, hy⟩
    · simp [h]
    · simp [hx, hy]
  simp [update, h1, htrig]

/-- Concrete instantiation of `c4_freeze_gate_amended` at `stC4`. -/
theorem c4_freeze_gate_witness :
    (stC4.playerMoved = false ∧
     (stC4.prevPX = none ∨
      (stC4.prevPX = some (500 : ℝ) ∧ stC4.prevPY = some (500 : ℝ)))) ∧
    ((update (fun _ => 0.5) 0 1 stC4 ⟨500, 500, 12, 0, []⟩).1.volcanic =
       { stC4.volcanic with visualPhase := stC4.volcanic.visualPhase + 1 * 8 } ∧
     (update (fun _ => 0.5) 0 1 stC4 ⟨500, 500, 12, 0, []⟩).1.glacial = stC4.glacial ∧
     (update (fun _ => 0.5) 0 1 stC4 ⟨500, 500, 12, 0, []⟩).1.canopy =
       { stC4.canopy with visualPhase := stC4.canopy.visualPhase + 1 * 3 } ∧
     (update (fun _ => 0.5) 0 1 stC4 ⟨500, 500, 12, 0, []⟩).1.reef =
       { stC4.reef with visualPhase := stC4.reef.visualPhase + 1 * 1.5 } ∧
     (update (fun _ => 0.5) 0 1 stC4 ⟨500, 500, 12, 0, []⟩).1.playerMoved = false ∧
     (update (fun _ => 0.5) 0 1 stC4 ⟨500, 500, 12, 0, []⟩).2.1 = ⟨500, 500, 12, 0, []⟩) :=
  ⟨⟨rfl, Or.inr ⟨rfl, rfl⟩⟩,
   c4_freeze_gate_amended (fun _ => 0.5) 0 1 stC4 ⟨500, 500, 12, 0, []⟩ rfl
     (Or.inr ⟨rfl, rfl⟩)⟩

/-! ## C5 — the division-by-zero guard is missing at the ice-bullet
aiming site -/

/-- **C5 (code bug).**  The spec's defensive policy says *every*
normalised-direction computation substitutes a distance of 1 when the true
distance is 0.  Five sites do (`chasePlayer`, `blockFromSafeZone`,
`knockBack`, the canopy lunge aiming and the reef wave seeking all wrap
the distance in `orOne`, the `|| 1` guard), but the glacial ice-bullet
aiming (src/enemies.js lines 443-450) divides by the raw distance
`iceBulletAimDist`.  With the player exactly at a Frostwyrm's position the
firing condition `dist ≤ 300` still passes while the divisor is `0`, so the
JS code computes `(0 / 0) * 210 = NaN` bullet velocity components (the
`orOne` guard would have produced the zero vector instead): the firing
path is taken at this input (one bullet appended, cooldown reset to 2 s)
with a zero divisor. -/
theorem c5_divzero_bug :
    iceBulletAimDist (makeFrostwyrm 1 1500 500) ⟨1500, 500, 12, 0, []⟩ = 0 ∧
    iceBulletAimDist (makeFrostwyrm 1 1500 500) ⟨1500, 500, 12, 0, []⟩ ≤ 300 ∧
    orOne (iceBulletAimDist (makeFrostwyrm 1 1500 500) ⟨1500, 500, 12, 0, []⟩) = 1 ∧
    (glacialEnemyStep (fun _ => 0.5) 0 ⟨1500, 500, 12, 0, []⟩ (makeFrostwyrm 1 1500 500)
        0 [] [] 0).2.2.2.1.length = 1 ∧
    (glacialEnemyStep (fun _ => 0.5) 0 ⟨1500, 500, 12, 0, []⟩ (makeFrostwyrm 1 1500 500)
        0 [] [] 0).2.1 = 2.0 := by
  have h0 : iceBulletAimDist (makeFrostwyrm 1 1500 500) ⟨1500, 500, 12, 0, []⟩ = 0 := by
    norm_num [iceBulletAimDist, makeFrostwyrm, hyp_zero]
  refine ⟨h0, by rw [h0]; norm_num, by rw [h0]; simp [orOne], ?_, ?_⟩ <;>
    norm_num [glacialEnemyStep, iceBulletAimDist, makeFrostwyrm, hyp_zero]

/-! ## C6 — the ice-bullet cooldown is zone-shared, not per-enemy -/

/-- Two unfrozen frostwyrms, both 100 px from the player. -/
def e6a : Enemy := { makeFrostwyrm 1 1500 500 with frozen := false }

/-- Second frostwyrm for the C6 counterexample. -/
def e6b : Enemy := { makeFrostwyrm 1 1700 500 with frozen := false }

/-- Glacial state for the C6 counterexample: shared cooldown expired. -/
def g6 : GlacialState := ⟨[e6a, e6b], [], [], 0, ⟨1800, 250, true, 0, 2⟩⟩

/-- Player for the C6 counterexample, 100 px from both frostwyrms. -/
def pl6 : Player := ⟨1600, 500, 12, 0, []⟩

/-- A deactivated safe zone (so the repulsion pass is the identity). -/
def sz6 : SafeZone := ⟨1000, 1000, 61.44, 3, 3, false, true⟩

/-- On a frame without a territory expansion, `glacialEnemyStep` is the
pure firing logic on the shared cooldown: decrement by `dt`; when expired,
fire toward a player within 300 px (resetting to 2 s) or back off for
0.5 s on a failed range check. -/
theorem glacialEnemyStep_fire (ρ : ℕ → ℝ) (dt : ℝ) (pl : Player) (e : Enemy) (cd : ℝ)
    (tiles : List FrozenTile) (bullets : List IceBullet) (k : ℕ)
    (hexp : ¬ e.expandTimer + dt ≥ 1.5) :
    glacialEnemyStep ρ dt pl e cd tiles bullets k =
      ({ e with expandTimer := e.expandTimer + dt },
       (if cd - dt ≤ 0 then (if iceBulletAimDist e pl ≤ 300 then 2.0 else 0.5) else cd - dt),
       tiles,
       (if cd - dt ≤ 0 ∧ iceBulletAimDist e pl ≤ 300 then
          bullets ++ [⟨e.x, e.y, (pl.x - e.x) / iceBulletAimDist e pl * 210,
            (pl.y - e.y) / iceBulletAimDist e pl * 210, 8, true⟩]
        else bullets),
       k) := by
  rw [glacialEnemyStep]
  dsimp only
  rw [if_neg hexp]
  by_cases hcd : cd - dt ≤ 0
  · by_cases hd : iceBulletAimDist e pl ≤ 300
    · rw [if_pos hcd]
      dsimp only [iceBulletAimDist] at hd ⊢
      rw [if_pos hd]
      simp [hcd, hd]
    · rw [if_pos hcd]
      dsimp only [iceBulletAimDist] at hd ⊢
      rw [if_neg hd]
      simp [hcd, hd]
  · rw [if_neg hcd]
    dsimp only [iceBulletAimDist]
    simp [hcd]

/-- Characterisation of one ice bullet's frame: it moves by `v·dt`, dies
exactly on player contact or leaving the map, and appends the permanent
`dead` effect exactly on contact. -/
theorem iceBulletStep_spec (dt : ℝ) (b : IceBullet) (pl : Player) (hb : b.alive = true) :
    iceBulletStep dt b pl =
      (⟨b.x + b.vx * dt, b.y + b.vy * dt, b.vx, b.vy, b.radius,
        decide ¬ (hyp (pl.x - (b.x + b.vx * dt)) (pl.y - (b.y + b.vy * dt)) ≤
            pl.radius + b.radius ∨
          b.x + b.vx * dt < 0 ∨ b.x + b.vx * dt > MAP_W ∨
          b.y + b.vy * dt < 0 ∨ b.y + b.vy * dt > MAP_H)⟩,
       if hyp (pl.x - (b.x + b.vx * dt)) (pl.y - (b.y + b.vy * dt)) ≤ pl.radius + b.radius
       then { pl with activeEffects := pl.activeEffects ++ [⟨"dead", none, 1⟩] }
       else pl) := by
  rw [iceBulletStep]
  rw [if_neg (by rw [hb]; exact fun h => by cases h)]
  dsimp only
  by_cases hc : hyp (pl.x - (b.x + b.vx * dt)) (pl.y - (b.y + b.vy * dt)) ≤
      pl.radius + b.radius
  · rw [if_pos hc, if_pos hc]
    dsimp only
    by_cases ho : b.x + b.vx * dt < 0 ∨ b.x + b.vx * dt > MAP_W ∨
        b.y + b.vy * dt < 0 ∨ b.y + b.vy * dt > MAP_H
    · rw [if_pos ho]
      simp [hc, ho]
    · rw [if_neg ho]
      simp [hc, ho]
  · rw [if_neg hc, if_neg hc]
    dsimp only
    by_cases ho : b.x + b.vx * dt < 0 ∨ b.x + b.vx * dt > MAP_W ∨
        b.y + b.vy * dt < 0 ∨ b.y + b.vy * dt > MAP_H
    · rw [if_pos ho]
      simp [hc, ho, hb]
    · rw [if_neg ho]
      simp [hc, ho, hb]

/-- **C6 (counterexample).**  The claim says *each enemy has its own
independent* alternating cooldown and fires whenever the player is within
300 px of that enemy.  In the code `bulletCooldown` is a field of the
*zone* (`S.glacial.bulletCooldown`, src/enemies.js line 69), shared by all
enemies: with two frostwyrms both within 300 px and the shared cooldown
expired, the first enemy's shot resets the shared cooldown to 2 s and the
second enemy — despite being in range with (per the claim) an expired
cooldown of its own — fires nothing, so exactly **one** bullet exists
after the update where independent per-enemy cooldowns would give two. -/
theorem c6_cooldown_counterexample :
    iceBulletAimDist e6a pl6 ≤ 300 ∧ iceBulletAimDist e6b pl6 ≤ 300 ∧
    g6.bulletCooldown = 0 ∧
    (updateGlacial (fun _ => 0.5) 0 sz6 0 pl6 g6).1.iceBullets.length = 1 := by
  have ha : iceBulletAimDist e6a pl6 = 100 := by
    norm_num [iceBulletAimDist, e6a, makeFrostwyrm, pl6]
    exact hyp_eq_of_sq (by norm_num) (by norm_num)
  have hb : iceBulletAimDist e6b pl6 = 100 := by
    norm_num [iceBulletAimDist, e6b, makeFrostwyrm, pl6]
    exact hyp_eq_of_sq (by norm_num) (by norm_num)
  refine ⟨by rw [ha]; norm_num, by rw [hb]; norm_num, rfl, ?_⟩
  have htick : tickEffects [e6a, e6b] 0 = [e6a, e6b] := by
    simp [tickEffects, tickEffectList, e6a, e6b, makeFrostwyrm]
  have hs1 := glacialEnemyStep_fire (fun _ => 0.5) 0 pl6 e6a 0 [] [] 0
    (by norm_num [e6a, makeFrostwyrm])
  have hs2 := glacialEnemyStep_fire (fun _ => 0.5) 0 pl6 e6b 2.0 []
    [⟨e6a.x, e6a.y, (pl6.x - e6a.x) / iceBulletAimDist e6a pl6 * 210,
      (pl6.y - e6a.y) / iceBulletAimDist e6a pl6 * 210, 8, true⟩] 0
    (by norm_num [e6b, makeFrostwyrm])
  rw [ha] at hs1
  have hs1' : glacialEnemyStep (fun _ => 0.5) 0 pl6 e6a 0 [] [] 0 =
      ({ e6a with expandTimer := e6a.expandTimer + 0 }, 2.0, [],
       [⟨e6a.x, e6a.y, (pl6.x - e6a.x) / iceBulletAimDist e6a pl6 * 210,
         (pl6.y - e6a.y) / iceBulletAimDist e6a pl6 * 210, 8, true⟩], 0) := by
    rw [hs1, ha]
    norm_num
  have hs2' : glacialEnemyStep (fun _ => 0.5) 0 pl6 e6b 2.0 []
      [⟨e6a.x, e6a.y, (pl6.x - e6a.x) / iceBulletAimDist e6a pl6 * 210,
        (pl6.y - e6a.y) / iceBulletAimDist e6a pl6 * 210, 8, true⟩] 0 =
      ({ e6b with expandTimer := e6b.expandTimer + 0 }, 2.0, [],
       [⟨e6a.x, e6a.y, (pl6.x - e6a.x) / iceBulletAimDist e6a pl6 * 210,
         (pl6.y - e6a.y) / iceBulletAimDist e6a pl6 * 210, 8, true⟩], 0) := by
    rw [hs2]
    norm_num
  have hloop : glacialEnemiesLoop (fun _ => 0.5) 0 pl6 [e6a, e6b] 0 [] [] 0 =
      ([{ e6a with expandTimer := e6a.expandTimer + 0 },
        { e6b with expandTimer := e6b.expandTimer + 0 }], 2.0, [],
       [⟨e6a.x, e6a.y, (pl6.x - e6a.x) / iceBulletAimDist e6a pl6 * 210,
         (pl6.y - e6a.y) / iceBulletAimDist e6a pl6 * 210, 8, true⟩], 0) := by
    have hna : ¬ (e6a.alive = false ∨ e6a.frozen = true) := by
      simp [e6a, makeFrostwyrm]
    have hnb : ¬ (e6b.alive = false ∨ e6b.frozen = true) := by
      simp [e6b, makeFrostwyrm]
    simp only [glacialEnemiesLoop, if_neg hna, if_neg hnb, hs1', hs2']
  have hbul : (iceBulletsStep 0 [⟨e6a.x, e6a.y,
      (pl6.x - e6a.x) / iceBulletAimDist e6a pl6 * 210,
      (pl6.y - e6a.y) / iceBulletAimDist e6a pl6 * 210, 8, true⟩] pl6).1.length = 1 := by
    rw [iceBulletsStep]
    have hstep := iceBulletStep_spec 0 ⟨e6a.x, e6a.y,
      (pl6.x - e6a.x) / iceBulletAimDist e6a pl6 * 210,
      (pl6.y - e6a.y) / iceBulletAimDist e6a pl6 * 210, 8, true⟩ pl6 rfl
    have hnc : ¬ (hyp (pl6.x - (e6a.x + (pl6.x - e6a.x) / iceBulletAimDist e6a pl6 * 210 * 0))
        (pl6.y - (e6a.y + (pl6.y - e6a.y) / iceBulletAimDist e6a pl6 * 210 * 0)) ≤
          pl6.radius + 8) := by
      have : hyp (pl6.x - e6a.x) (pl6.y - e6a.y) = 100 := by
        norm_num [e6a, makeFrostwyrm, pl6]
        exact hyp_eq_of_sq (by norm_num) (by norm_num)
      simp only [mul_zero, add_zero]
      rw [this]
      norm_num [pl6]
    have hno : ¬ ((e6a.x + (pl6.x - e6a.x) / iceBulletAimDist e6a pl6 * 210 * 0 < 0) ∨
        (e6a.x + (pl6.x - e6a.x) / iceBulletAimDist e6a pl6 * 210 * 0 > MAP_W) ∨
        (e6a.y + (pl6.y - e6a.y) / iceBulletAimDist e6a pl6 * 210 * 0 < 0) ∨
        (e6a.y + (pl6.y - e6a.y) / iceBulletAimDist e6a pl6 * 210 * 0 > MAP_H)) := by
      norm_num [e6a, makeFrostwyrm, MAP_W, MAP_H]
    simp only [List.foldl_cons, List.foldl_nil, List.nil_append, hstep]
    have h100a : hyp ((1600 : ℝ) - 1500) ((500 : ℝ) - 500) = 100 :=
      hyp_eq_of_sq (by norm_num) (by norm_num)
    have h100b : hyp (100 : ℝ) (0 : ℝ) = 100 :=
      hyp_eq_of_sq (by norm_num) (by norm_num)
    simp [hnc, hno]
    norm_num [pl6, e6a, makeFrostwyrm, MAP_W, MAP_H, h100a, h100b]
  rw [updateGlacial]
  simp only [g6, htick, hloop, hbul]

/-- **C6 (amended).**  The Glacial zone has a single *zone-wide*
alternating bullet cooldown (`S.glacial.bulletCooldown`), decremented once
per alive unfrozen enemy per frame and shared between them; with the
single Frostwyrm the zone ever spawns this behaves like that enemy's own
cooldown.  On a non-expansion frame: a bullet is fired toward the player
iff the shared cooldown has expired and the player is within 300 px
(cooldown resets to 2 s on a shot and 0.5 s on a failed range check); a
fired bullet starts at the enemy with radius 8 and speed 210 px/s
(whenever the aiming distance is nonzero); a live bullet dies exactly when
it touches the player or leaves the map bounds, and touching the player
appends the permanent `{type := dead, duration := ∞}` effect to the
player's effect list. -/
theorem c6_glacial_amended :
    (∀ (ρ : ℕ → ℝ) (dt : ℝ) (pl : Player) (e : Enemy) (cd : ℝ)
       (tiles : List FrozenTile) (bullets : List IceBullet) (k : ℕ),
       ¬ e.expandTimer + dt ≥ 1.5 →
       (glacialEnemyStep ρ dt pl e cd tiles bullets k).2.2.2.1 =
         (if cd - dt ≤ 0 ∧ iceBulletAimDist e pl ≤ 300 then
            bullets ++ [⟨e.x, e.y, (pl.x - e.x) / iceBulletAimDist e pl * 210,
              (pl.y - e.y) / iceBulletAimDist e pl * 210, 8, true⟩]
          else bullets) ∧
       (glacialEnemyStep ρ dt pl e cd tiles bullets k).2.1 =
         (if cd - dt ≤ 0 then (if iceBulletAimDist e pl ≤ 300 then 2.0 else 0.5)
          else cd - dt)) ∧
    (∀ (e : Enemy) (pl : Player), iceBulletAimDist e pl ≠ 0 →
       hyp ((pl.x - e.x) / iceBulletAimDist e pl * 210)
           ((pl.y - e.y) / iceBulletAimDist e pl * 210) = 210) ∧
    (∀ (dt : ℝ) (b : IceBullet) (pl : Player), b.alive = true →
       ((iceBulletStep dt b pl).1.alive = false ↔
         (hyp (pl.x - (b.x + b.vx * dt)) (pl.y - (b.y + b.vy * dt)) ≤ pl.radius + b.radius ∨
          b.x + b.vx * dt < 0 ∨ b.x + b.vx * dt > MAP_W ∨
          b.y + b.vy * dt < 0 ∨ b.y + b.vy * dt > MAP_H)) ∧
       (iceBulletStep dt b pl).2.activeEffects =
         (if hyp (pl.x - (b.x + b.vx * dt)) (pl.y - (b.y + b.vy * dt)) ≤ pl.radius + b.radius
          then pl.activeEffects ++ [⟨"dead", none, 1⟩] else pl.activeEffects)) := by
  refine ⟨?_, ?_, ?_⟩
  · intro ρ dt pl e cd tiles bullets k hexp
    rw [glacialEnemyStep_fire ρ dt pl e cd tiles bullets k hexp]
    constructor
    · rfl
    · rfl
  · intro e pl hd
    have hnn : (0 : ℝ) ≤ (pl.x - e.x) * (pl.x - e.x) + (pl.y - e.y) * (pl.y - e.y) :=
      add_nonneg (mul_self_nonneg _) (mul_self_nonneg _)
    have hdd : iceBulletAimDist e pl * iceBulletAimDist e pl =
        (pl.x - e.x) * (pl.x - e.x) + (pl.y - e.y) * (pl.y - e.y) :=
      Real.mul_self_sqrt hnn
    have key : (pl.x - e.x) / iceBulletAimDist e pl * 210 *
          ((pl.x - e.x) / iceBulletAimDist e pl * 210) +
        (pl.y - e.y) / iceBulletAimDist e pl * 210 *
          ((pl.y - e.y) / iceBulletAimDist e pl * 210) = 210 * 210 := by
      field_simp
      nlinarith [hdd]
    rw [hyp, key, Real.sqrt_mul_self (by norm_num)]
  · intro dt b pl hb
    rw [iceBulletStep_spec dt b pl hb]
    by_cases hc : hyp (pl.x - (b.x + b.vx * dt)) (pl.y - (b.y + b.vy * dt)) ≤
        pl.radius + b.radius
    · simp [hc]
    · by_cases ho : b.x + b.vx * dt < 0 ∨ b.x + b.vx * dt > MAP_W ∨
          b.y + b.vy * dt < 0 ∨ b.y + b.vy * dt > MAP_H
      · simp [hc, ho]
      · simp [hc, ho]

/-- Concrete instantiation of `c6_glacial_amended`: each conjunct applied
at an explicit input with its hypothesis discharged. -/
theorem c6_glacial_amended_witness :
    (¬ (makeFrostwyrm 1 1500 500).expandTimer + 0 ≥ 1.5 ∧
     ((glacialEnemyStep (fun _ => 0.5) 0 pl6 (makeFrostwyrm 1 1500 500) 0 [] [] 0).2.2.2.1 =
       (if (0 : ℝ) - 0 ≤ 0 ∧ iceBulletAimDist (makeFrostwyrm 1 1500 500) pl6 ≤ 300 then
          [] ++ [⟨(makeFrostwyrm 1 1500 500).x, (makeFrostwyrm 1 1500 500).y,
            (pl6.x - (makeFrostwyrm 1 1500 500).x) /
              iceBulletAimDist (makeFrostwyrm 1 1500 500) pl6 * 210,
            (pl6.y - (makeFrostwyrm 1 1500 500).y) /
              iceBulletAimDist (makeFrostwyrm 1 1500 500) pl6 * 210, 8, true⟩]
        else []))) ∧
    (iceBulletAimDist e6a pl6 ≠ 0 ∧
     hyp ((pl6.x - e6a.x) / iceBulletAimDist e6a pl6 * 210)
         ((pl6.y - e6a.y) / iceBulletAimDist e6a pl6 * 210) = 210) ∧
    ((⟨100, 100, 0, 0, 8, true⟩ : IceBullet).alive = true ∧
     ((iceBulletStep 1 ⟨100, 100, 0, 0, 8, true⟩ ⟨500, 500, 12, 0, []⟩).1.alive = false ↔
       (hyp ((500 : ℝ) - ((100 : ℝ) + 0 * 1)) ((500 : ℝ) - ((100 : ℝ) + 0 * 1)) ≤
           (12 : ℝ) + 8 ∨
        (100 : ℝ) + 0 * 1 < 0 ∨ (100 : ℝ) + 0 * 1 > MAP_W ∨
        (100 : ℝ) + 0 * 1 < 0 ∨ (100 : ℝ) + 0 * 1 > MAP_H))) := by
  have hd0 : iceBulletAimDist e6a pl6 ≠ 0 := by
    have : iceBulletAimDist e6a pl6 = 100 := by
      norm_num [iceBulletAimDist, e6a, makeFrostwyrm, pl6]
      exact hyp_eq_of_sq (by norm_num) (by norm_num)
    rw [this]
    norm_num
  refine ⟨⟨by norm_num [makeFrostwyrm], ?_⟩, ⟨hd0, c6_glacial_amended.2.1 e6a pl6 hd0⟩,
    ⟨rfl, ?_⟩⟩
  · exact (c6_glacial_amended.1 (fun _ => 0.5) 0 pl6 (makeFrostwyrm 1 1500 500) 0 [] [] 0
      (by norm_num [makeFrostwyrm])).1
  · exact (c6_glacial_amended.2.2 1 ⟨100, 100, 0, 0, 8, true⟩ ⟨500, 500, 12, 0, []⟩ rfl).1

/-! ## Counting lemmas and the volcanic split loop -/

theorem aliveCount_nil : aliveCount [] = 0 := rfl

theorem aliveCount_append (l1 l2 : List Enemy) :
    aliveCount (l1 ++ l2) = aliveCount l1 + aliveCount l2 := by
  simp [aliveCount]

theorem aliveCount_cons (e : Enemy) (l : List Enemy) :
    aliveCount (e :: l) = (if e.alive = true then 1 else 0) + aliveCount l := by
  by_cases h : e.alive = true <;> simp [aliveCount, List.filter_cons, h] <;> omega

theorem aliveCount_filter (l : List Enemy) :
    aliveCount (l.filter fun e => e.alive) = aliveCount l := by
  simp [aliveCount, List.filter_filter]

theorem aliveCount_of_all_alive (l : List Enemy) (h : ∀ e ∈ l, e.alive = true) :
    aliveCount l = l.length := by
  unfold aliveCount
  rw [List.filter_eq_self.mpr h]

theorem aliveCount_le_length (l : List Enemy) : aliveCount l ≤ l.length := by
  simpa [aliveCount] using List.length_filter_le _ l

/-- `_chasePlayer` only moves the enemy: every non-positional field is
preserved. -/
theorem chasePlayer_fields (e : Enemy) (pl : Player) (dt : ℝ) :
    (chasePlayer e pl dt).alive = e.alive ∧ (chasePlayer e pl dt).frozen = e.frozen ∧
    (chasePlayer e pl dt).sizeMult = e.sizeMult ∧ (chasePlayer e pl dt).radius = e.radius ∧
    (chasePlayer e pl dt).speedBoostMult = e.speedBoostMult ∧
    (chasePlayer e pl dt).trailTimer = e.trailTimer := by
  unfold chasePlayer
  split_ifs <;> exact ⟨rfl, rfl, rfl, rfl, rfl, rfl⟩

/-- With `dt = 0` the chase step does not move the enemy. -/
theorem chasePlayer_pos_dt_zero (e : Enemy) (pl : Player) :
    (chasePlayer e pl 0).x = e.x ∧ (chasePlayer e pl 0).y = e.y := by
  unfold chasePlayer
  split_ifs <;> simp

/-- The condition under which the volcanic per-enemy loop splits enemy `e`
(src/enemies.js lines 386-388): the enemy is alive and unfrozen, the
ability edge fired, the enemy (at its post-chase position) is within
200 px of the player, and its size is above the 0.4 threshold. -/
def willSplit (abil : Bool) (pl : Player) (dt : ℝ) (e : Enemy) : Prop :=
  e.alive = true ∧ e.frozen = false ∧ abil = true ∧
  hyp (pl.x - (chasePlayer e pl dt).x) (pl.y - (chasePlayer e pl dt).y) ≤ 200 ∧
  (chasePlayer e pl dt).sizeMult > 0.4

/-- Processing a run of non-splitting enemies preserves the alive count of
the array and queues no children. -/
theorem volcanicEnemiesLoop_noSplit (ρ : ℕ → ℝ) (speedMult : ℝ) (abil : Bool)
    (pl : Player) (dt : ℝ) :
    ∀ (rem acc splits : List Enemy) (trails : List LavaTrail) (k : ℕ),
    (∀ e ∈ rem, ¬ willSplit abil pl dt e) →
    aliveCount (volcanicEnemiesLoop ρ speedMult abil pl dt acc rem splits trails k).1 =
      aliveCount acc + aliveCount rem ∧
    (volcanicEnemiesLoop ρ speedMult abil pl dt acc rem splits trails k).2.1 = splits := by
  intro rem
  induction rem with
  | nil =>
    intro acc splits trails k _
    simp [volcanicEnemiesLoop, aliveCount_nil]
  | cons e rest ih =>
    intro acc splits trails k h
    have hrest : ∀ x ∈ rest, ¬ willSplit abil pl dt x :=
      fun x hx => h x (List.mem_cons_of_mem _ hx)
    rw [volcanicEnemiesLoop]
    by_cases hskip : e.alive = false ∨ e.frozen = true
    · rw [if_pos hskip]
      constructor
      · rw [(ih _ splits trails k hrest).1, aliveCount_append, aliveCount_cons,
            aliveCount_cons, aliveCount_nil]
        omega
      · exact (ih _ splits trails k hrest).2
    · rw [if_neg hskip]
      have halive : e.alive = true := by
        rcases Bool.eq_false_or_eq_true e.alive with ht | hf
        · exact ht
        · exact absurd (Or.inl hf) hskip
      have hfroz : e.frozen = false := by
        rcases Bool.eq_false_or_eq_true e.frozen with ht | hf
        · exact absurd (Or.inr ht) hskip
        · exact hf
      have hnc : ¬ (abil = true ∧
          hyp (pl.x - (chasePlayer e pl dt).x) (pl.y - (chasePlayer e pl dt).y) ≤ 200 ∧
          (chasePlayer e pl dt).sizeMult > 0.4) :=
        fun hcond => h e (List.mem_cons_self e rest)
          ⟨halive, hfroz, hcond.1, hcond.2.1, hcond.2.2⟩
      dsimp only
      by_cases htr : (chasePlayer e pl dt).trailTimer + dt ≥ 0.3
      · rw [if_pos htr]
        dsimp only
        rw [if_neg hnc]
        constructor
        · rw [(ih _ splits _ k hrest).1, aliveCount_append, aliveCount_cons,
              aliveCount_cons, aliveCount_nil]
          simp only [(chasePlayer_fields e pl dt).1, halive]
          omega
        · exact (ih _ splits _ k hrest).2
      · rw [if_neg htr]
        dsimp only
        rw [if_neg hnc]
        constructor
        · rw [(ih _ splits _ k hrest).1, aliveCount_append, aliveCount_cons,
              aliveCount_cons, aliveCount_nil]
          simp only [(chasePlayer_fields e pl dt).1, halive]
          omega
        · exact (ih _ splits _ k hrest).2

theorem aliveCount_pair (a b : Enemy) : aliveCount [a, b] ≤ 2 := by
  rw [aliveCount_cons, aliveCount_cons, aliveCount_nil]
  split_ifs <;> omega

/-- `splitChild` reads only the parent's position, radius, size and speed
boost, so parents agreeing on those yield the same child. -/
theorem splitChild_congr (s : ℝ) (a b : Enemy) (r1 r2 : ℝ)
    (hx : a.x = b.x) (hy : a.y = b.y) (hr : a.radius = b.radius)
    (hs : a.sizeMult = b.sizeMult) (hb : a.speedBoostMult = b.speedBoostMult) :
    splitChild s a r1 r2 = splitChild s b r1 r2 := by
  simp [splitChild, makeMagmawyrm, hx, hy, hr, hs, hb]

/-- Processing the enemy array when exactly the head enemy satisfies the
split condition: the parent dies, the rest of the array keeps its alive
count, and the two children are queued iff the alive count *at the moment
of the check* — the processed prefix plus the remaining enemies, the
parent already dead and queued children not counted — plus 2 fits within
the 6-enemy cap. -/
theorem volcanicEnemiesLoop_single (ρ : ℕ → ℝ) (speedMult : ℝ) (abil : Bool)
    (pl : Player) (dt : ℝ) (e : Enemy) (rest acc : List Enemy) (trails : List LavaTrail)
    (k : ℕ) (hw : willSplit abil pl dt e)
    (hrest : ∀ x ∈ rest, ¬ willSplit abil pl dt x) :
    aliveCount (volcanicEnemiesLoop ρ speedMult abil pl dt acc (e :: rest) [] trails k).1 =
      aliveCount acc + aliveCount rest ∧
    (volcanicEnemiesLoop ρ speedMult abil pl dt acc (e :: rest) [] trails k).2.1 =
      (if aliveCount acc + aliveCount rest + 2 ≤ MAX_PER_ZONE then
        [splitChild speedMult { chasePlayer e pl dt with alive := false } (ρ k) (ρ (k + 1)),
         splitChild speedMult { chasePlayer e pl dt with alive := false }
           (ρ (k + 2)) (ρ (k + 3))]
      else []) ∧
    aliveCount (volcanicEnemiesLoop ρ speedMult abil pl dt acc (e :: rest) [] trails k).2.1 ≤
      2 := by
  obtain ⟨halive, hfroz, habil, hdist, hsize⟩ := hw
  have hskip : ¬ (e.alive = false ∨ e.frozen = true) := by
    simp [halive, hfroz]
  have hc : abil = true ∧
      hyp (pl.x - (chasePlayer e pl dt).x) (pl.y - (chasePlayer e pl dt).y) ≤ 200 ∧
      (chasePlayer e pl dt).sizeMult > 0.4 := ⟨habil, hdist, hsize⟩
  rw [volcanicEnemiesLoop, if_neg hskip]
  dsimp only
  by_cases htr : (chasePlayer e pl dt).trailTimer + dt ≥ 0.3
  · rw [if_pos htr]
    dsimp only
    rw [if_pos hc]
    by_cases hg : aliveCount acc + aliveCount rest + 2 ≤ MAX_PER_ZONE
    · rw [if_pos hg, if_pos hg]
      refine ⟨?_, ?_, ?_⟩
      · rw [(volcanicEnemiesLoop_noSplit ρ speedMult abil pl dt rest _ _ _ _ hrest).1,
            aliveCount_append, aliveCount_cons, aliveCount_nil]
        simp
      · rw [(volcanicEnemiesLoop_noSplit ρ speedMult abil pl dt rest _ _ _ _ hrest).2]
        rw [List.nil_append]
        congr 1
      · rw [(volcanicEnemiesLoop_noSplit ρ speedMult abil pl dt rest _ _ _ _ hrest).2]
        rw [List.nil_append]
        exact aliveCount_pair _ _
    · rw [if_neg hg, if_neg hg]
      refine ⟨?_, ?_, ?_⟩
      · rw [(volcanicEnemiesLoop_noSplit ρ speedMult abil pl dt rest _ _ _ _ hrest).1,
            aliveCount_append, aliveCount_cons, aliveCount_nil]
        simp
      · exact (volcanicEnemiesLoop_noSplit ρ speedMult abil pl dt rest _ _ _ _ hrest).2
      · rw [(volcanicEnemiesLoop_noSplit ρ speedMult abil pl dt rest _ _ _ _ hrest).2,
            aliveCount_nil]
        omega
  · rw [if_neg htr]
    dsimp only
    rw [if_pos hc]
    by_cases hg : aliveCount acc + aliveCount rest + 2 ≤ MAX_PER_ZONE
    · rw [if_pos hg, if_pos hg]
      refine ⟨?_, ?_, ?_⟩
      · rw [(volcanicEnemiesLoop_noSplit ρ speedMult abil pl dt rest _ _ _ _ hrest).1,
            aliveCount_append, aliveCount_cons, aliveCount_nil]
        simp
      · rw [(volcanicEnemiesLoop_noSplit ρ speedMult abil pl dt rest _ _ _ _ hrest).2]
        rw [List.nil_append]
        congr 1
      · rw [(volcanicEnemiesLoop_noSplit ρ speedMult abil pl dt rest _ _ _ _ hrest).2]
        rw [List.nil_append]
        exact aliveCount_pair _ _
    · rw [if_neg hg, if_neg hg]
      refine ⟨?_, ?_, ?_⟩
      · rw [(volcanicEnemiesLoop_noSplit ρ speedMult abil pl dt rest _ _ _ _ hrest).1,
            aliveCount_append, aliveCount_cons, aliveCount_nil]
        simp
      · exact (volcanicEnemiesLoop_noSplit ρ speedMult abil pl dt rest _ _ _ _ hrest).2
      · rw [(volcanicEnemiesLoop_noSplit ρ speedMult abil pl dt rest _ _ _ _ hrest).2,
            aliveCount_nil]
        omega

/-! ## C3 — the split guard uses the post-death count, not the pre-split
count -/

/-- An unfrozen full-size magmawyrm at the player's position. -/
def near3 : Enemy := { makeMagmawyrm 1 100 100 1 1 with frozen := false }

/-- An unfrozen full-size magmawyrm far (≈990 px) from the player. -/
def far3 : Enemy := { makeMagmawyrm 1 800 800 1 1 with frozen := false }

/-- Volcanic state with 5 alive enemies, exactly one of them in ability
range of the player. -/
def v3 : VolcanicState := ⟨[near3, far3, far3, far3, far3], [], [], 0, 0, ⟨250, 250, false⟩⟩

/-- Player at `(100, 100)` with the ability just used. -/
def pl3 : Player := ⟨100, 100, 12, 5, []⟩

/-- A deactivated safe zone (block pass is the identity). -/
def sz3 : SafeZone := ⟨1000, 1000, 61.44, 3, 3, false, true⟩

theorem willSplit_near3 : willSplit true pl3 0 near3 := by
  refine ⟨rfl, rfl, rfl, ?_, ?_⟩
  · rw [(chasePlayer_pos_dt_zero near3 pl3).1, (chasePlayer_pos_dt_zero near3 pl3).2]
    norm_num [near3, makeMagmawyrm, pl3, hyp_zero]
  · rw [(chasePlayer_fields near3 pl3 0).2.2.1]
    norm_num [near3, makeMagmawyrm, orOne]

theorem not_willSplit_far3 : ¬ willSplit true pl3 0 far3 := by
  intro hw
  have hx := (chasePlayer_pos_dt_zero far3 pl3).1
  have hy := (chasePlayer_pos_dt_zero far3 pl3).2
  have hd := hw.2.2.2.1
  rw [hx, hy] at hd
  have : ¬ hyp (pl3.x - far3.x) (pl3.y - far3.y) ≤ 200 := by
    have h8 : far3.x = 800 ∧ far3.y = 800 := by
      constructor <;> norm_num [far3, makeMagmawyrm]
    rw [h8.1, h8.2]
    exact not_hyp_le_of_sq (by norm_num) (by norm_num [pl3])
  exact this hd

/-- **C3 (counterexample).**  The claim says two children are spawned for
a dying parent *iff the zone's pre-split alive count plus 2 does not
exceed 6*.  With 5 alive enemies (pre-split count 5, so the claim
forbids children: 5 + 2 > 6) and exactly one of them splitting, the code
checks `_aliveCount` *after* the parent has been marked dead (4 + 2 ≤ 6)
and does spawn the two children: the zone ends the update with 6 alive
enemies where the claim predicts 4. -/
theorem c3_split_counterexample :
    aliveCount v3.enemies = 5 ∧
    aliveCount (updateVolcanic (fun _ => 0.5) 0 sz3 0 pl3 true 1 v3).1.enemies = 6 := by
  have hfar : ∀ x ∈ [far3, far3, far3, far3], ¬ willSplit true pl3 0 x := by
    intro x hx
    simp only [List.mem_cons, List.not_mem_nil, or_false, or_self] at hx
    rw [hx]
    exact not_willSplit_far3
  have hloop := volcanicEnemiesLoop_single (fun _ => 0.5) 1 true pl3 0 near3
    [far3, far3, far3, far3] [] [] 0 willSplit_near3 hfar
  have h4 : aliveCount [far3, far3, far3, far3] = 4 := rfl
  have h0 : aliveCount ([] : List Enemy) = 0 := rfl
  have hg : aliveCount ([] : List Enemy) + aliveCount [far3, far3, far3, far3] + 2 ≤
      MAX_PER_ZONE := by
    rw [h0, h4]
    decide
  have hsp : volcanicSpeedStep 0 0 [near3, far3, far3, far3, far3] =
      (0, [near3, far3, far3, far3, far3]) := by
    norm_num [volcanicSpeedStep]
  have htr3 : volcanicTrailStep 0 [] pl3 = ([], pl3) := by
    simp [volcanicTrailStep]
  have hgy : volcanicGeysersStep 0 [] pl3 = ([], pl3) := by
    simp [volcanicGeysersStep]
  have htk : tickEffects [near3, far3, far3, far3, far3] 0 =
      [near3, far3, far3, far3, far3] := by
    simp [tickEffects, tickEffectList, near3, far3, makeMagmawyrm]
  have hblock : ∀ l, blockFromSafeZone sz3 l = l := by
    intro l
    rw [blockFromSafeZone, if_pos]
    rfl
  constructor
  · rfl
  · rw [updateVolcanic]
    dsimp only [v3]
    rw [hsp]
    dsimp only
    rw [htr3]
    dsimp only
    rw [hgy]
    dsimp only
    rw [htk, hblock, aliveCount_append, aliveCount_filter, hloop.1, hloop.2.1, if_pos hg,
      h0, h4]
    rfl

/-- **C3 (amended).**  In the volcanic split mechanic, when exactly one
enemy `e` of the array satisfies the split condition (ability edge, alive,
unfrozen, within 200 px post-chase, `sizeMult > 0.4`): the parent dies
(the remaining array keeps its alive count), and exactly two children are
spawned **iff the alive count at the moment of the check — after the
parent's death, queued children not counted — plus 2 does not exceed 6**
(for a single splitter: pre-split alive count + 1 ≤ 6, not + 2 ≤ 6 as the
claim stated); each child has `sizeMult` 0.6× the parent's, base speed
multiplied by 1.3, the parent's accumulated `speedBoostMult` (and
`speed = baseSpeed × speedBoostMult`), and is alive and unfrozen.
Enemies failing the condition (in particular `sizeMult ≤ 0.4`) keep their
alive status.  -/
theorem c3_split_amended (ρ : ℕ → ℝ) (speedMult : ℝ) (abil : Bool) (pl : Player)
    (dt : ℝ) (e : Enemy) (rest acc : List Enemy) (trails : List LavaTrail) (k : ℕ)
    (hw : willSplit abil pl dt e) (hrest : ∀ x ∈ rest, ¬ willSplit abil pl dt x) :
    aliveCount (volcanicEnemiesLoop ρ speedMult abil pl dt acc (e :: rest) [] trails k).1 =
      aliveCount acc + aliveCount rest ∧
    (volcanicEnemiesLoop ρ speedMult abil pl dt acc (e :: rest) [] trails k).2.1.length =
      (if aliveCount acc + aliveCount rest + 2 ≤ MAX_PER_ZONE then 2 else 0) ∧
    ∀ c ∈ (volcanicEnemiesLoop ρ speedMult abil pl dt acc (e :: rest) [] trails k).2.1,
      c.alive = true ∧ c.frozen = false ∧ c.sizeMult = e.sizeMult * 0.6 ∧
      c.speedBoostMult = e.speedBoostMult ∧ c.baseSpeed = 60 * speedMult * 1.3 ∧
      c.speed = 60 * speedMult * 1.3 * e.speedBoostMult := by
  have hsingle := volcanicEnemiesLoop_single ρ speedMult abil pl dt e rest acc trails k
    hw hrest
  have hsize : e.sizeMult > 0.4 := by
    have := hw.2.2.2.2
    rwa [(chasePlayer_fields e pl dt).2.2.1] at this
  have hsz : orOne (e.sizeMult * 0.6) = e.sizeMult * 0.6 := by
    rw [orOne, if_neg]
    intro h
    nlinarith
  have h13 : orOne (1.3 : ℝ) = 1.3 := by
    rw [orOne, if_neg]
    norm_num
  refine ⟨hsingle.1, ?_, ?_⟩
  · rw [hsingle.2.1]
    by_cases hg : aliveCount acc + aliveCount rest + 2 ≤ MAX_PER_ZONE
    · rw [if_pos hg, if_pos hg]
      rfl
    · rw [if_neg hg, if_neg hg]
      rfl
  · intro c hc
    rw [hsingle.2.1] at hc
    by_cases hg : aliveCount acc + aliveCount rest + 2 ≤ MAX_PER_ZONE
    · rw [if_pos hg] at hc
      simp only [List.mem_cons, List.not_mem_nil, or_false] at hc
      rcases hc with h | h <;>
        · subst h
          refine ⟨rfl, rfl, ?_, ?_, ?_, ?_⟩ <;>
            simp [splitChild, makeMagmawyrm, hsz, h13,
              (chasePlayer_fields e pl dt).2.2.1, (chasePlayer_fields e pl dt).2.2.2.2.1]
    · rw [if_neg hg] at hc
      cases hc

/-- Concrete instantiation of `c3_split_amended`: a lone splitter at the
player's position. -/
theorem c3_split_amended_witness :
    (willSplit true pl3 0 near3 ∧ ∀ x ∈ ([] : List Enemy), ¬ willSplit true pl3 0 x) ∧
    (aliveCount (volcanicEnemiesLoop (fun _ => 0.5) 1 true pl3 0 [] [near3] [] [] 0).1 =
       aliveCount ([] : List Enemy) + aliveCount ([] : List Enemy) ∧
     (volcanicEnemiesLoop (fun _ => 0.5) 1 true pl3 0 [] [near3] [] [] 0).2.1.length =
       (if aliveCount ([] : List Enemy) + aliveCount ([] : List Enemy) + 2 ≤ MAX_PER_ZONE
        then 2 else 0) ∧
     ∀ c ∈ (volcanicEnemiesLoop (fun _ => 0.5) 1 true pl3 0 [] [near3] [] [] 0).2.1,
       c.alive = true ∧ c.frozen = false ∧ c.sizeMult = near3.sizeMult * 0.6 ∧
       c.speedBoostMult = near3.speedBoostMult ∧ c.baseSpeed = 60 * 1 * 1.3 ∧
       c.speed = 60 * 1 * 1.3 * near3.speedBoostMult) :=
  ⟨⟨willSplit_near3, fun x hx => absurd hx (List.not_mem_nil x)⟩,
   c3_split_amended (fun _ => 0.5) 1 true pl3 0 near3 [] [] [] 0 willSplit_near3
     (fun x hx => absurd hx (List.not_mem_nil x))⟩

/-! ## C1 — the 6-enemy cap -/

/-- `aliveCount` is invariant under maps that preserve the `alive` flag. -/
theorem aliveCount_map (f : Enemy → Enemy) (hf : ∀ e, (f e).alive = e.alive) :
    ∀ l : List Enemy, aliveCount (l.map f) = aliveCount l := by
  intro l
  induction l with
  | nil => rfl
  | cons e rest ih => rw [List.map_cons, aliveCount_cons, aliveCount_cons, hf, ih]

theorem blockFromSafeZone_aliveCount (sz : SafeZone) (l : List Enemy) :
    aliveCount (blockFromSafeZone sz l) = aliveCount l := by
  rw [blockFromSafeZone]
  by_cases h : sz.active = false
  · rw [if_pos h]
  · rw [if_neg h]
    apply aliveCount_map
    intro e
    dsimp only
    split_ifs <;> rfl

theorem volcanicSpeedStep_aliveCount (dt t : ℝ) (l : List Enemy) :
    aliveCount (volcanicSpeedStep dt t l).2 = aliveCount l := by
  rw [volcanicSpeedStep]
  by_cases h : t + dt ≥ 5
  · rw [if_pos h]
    apply aliveCount_map
    intro e
    rfl
  · rw [if_neg h]

theorem tickEffects_aliveCount (l : List Enemy) (dt : ℝ) :
    aliveCount (tickEffects l dt) = aliveCount l := by
  apply aliveCount_map
  intro e
  rfl

/-- Running the loop over a prefix of non-splitting enemies only moves the
prefix into the accumulator: same alive mass, no children, and the random
cursor untouched. -/
theorem volcanicEnemiesLoop_prefix (ρ : ℕ → ℝ) (speedMult : ℝ) (abil : Bool)
    (pl : Player) (dt : ℝ) :
    ∀ (l1 rem acc splits : List Enemy) (trails : List LavaTrail) (k : ℕ),
    (∀ x ∈ l1, ¬ willSplit abil pl dt x) →
    ∃ (acc' : List Enemy) (trails' : List LavaTrail),
      volcanicEnemiesLoop ρ speedMult abil pl dt acc (l1 ++ rem) splits trails k =
        volcanicEnemiesLoop ρ speedMult abil pl dt acc' rem splits trails' k ∧
      aliveCount acc' = aliveCount acc + aliveCount l1 := by
  intro l1
  induction l1 with
  | nil =>
    intro rem acc splits trails k _
    exact ⟨acc, trails, by rw [List.nil_append], by simp [aliveCount_nil]⟩
  | cons e rest ih =>
    intro rem acc splits trails k h
    have hrest : ∀ x ∈ rest, ¬ willSplit abil pl dt x :=
      fun x hx => h x (List.mem_cons_of_mem _ hx)
    rw [List.cons_append, volcanicEnemiesLoop]
    by_cases hskip : e.alive = false ∨ e.frozen = true
    · rw [if_pos hskip]
      obtain ⟨acc', trails', heq, hct⟩ := ih rem (acc ++ [e]) splits trails k hrest
      refine ⟨acc', trails', heq, ?_⟩
      rw [hct, aliveCount_append, aliveCount_cons, aliveCount_cons, aliveCount_nil]
      omega
    · rw [if_neg hskip]
      have halive : e.alive = true := by
        rcases Bool.eq_false_or_eq_true e.alive with ht | hf
        · exact ht
        · exact absurd (Or.inl hf) hskip
      have hfroz : e.frozen = false := by
        rcases Bool.eq_false_or_eq_true e.frozen with ht | hf
        · exact absurd (Or.inr ht) hskip
        · exact hf
      have hnc : ¬ (abil = true ∧
          hyp (pl.x - (chasePlayer e pl dt).x) (pl.y - (chasePlayer e pl dt).y) ≤ 200 ∧
          (chasePlayer e pl dt).sizeMult > 0.4) :=
        fun hcond => h e (List.mem_cons_self e rest)
          ⟨halive, hfroz, hcond.1, hcond.2.1, hcond.2.2⟩
      dsimp only
      by_cases htr : (chasePlayer e pl dt).trailTimer + dt ≥ 0.3
      · rw [if_pos htr]
        dsimp only
        rw [if_neg hnc]
        obtain ⟨acc', trails', heq, hct⟩ := ih rem _ splits _ k hrest
        refine ⟨acc', trails', heq, ?_⟩
        rw [hct, aliveCount_append, aliveCount_cons, aliveCount_cons, aliveCount_nil]
        simp only [(chasePlayer_fields e pl dt).1, halive]
        omega
      · rw [if_neg htr]
        dsimp only
        rw [if_neg hnc]
        obtain ⟨acc', trails', heq, hct⟩ := ih rem _ splits _ k hrest
        refine ⟨acc', trails', heq, ?_⟩
        rw [hct, aliveCount_append, aliveCount_cons, aliveCount_cons, aliveCount_nil]
        simp only [(chasePlayer_fields e pl dt).1, halive]
        omega

/-- When *every* remaining enemy splits and the alive mass is below the
cap, every guard check passes: all the parents die and `2 × rem.length`
children are queued — the guard never counts the children queued by the
earlier splitters of the same frame. -/
theorem volcanicEnemiesLoop_allSplit (ρ : ℕ → ℝ) (speedMult : ℝ) (abil : Bool)
    (pl : Player) (dt : ℝ) :
    ∀ (rem acc splits : List Enemy) (trails : List LavaTrail) (k : ℕ),
    (∀ x ∈ rem, willSplit abil pl dt x) →
    aliveCount acc + aliveCount rem + 1 ≤ MAX_PER_ZONE →
    aliveCount (volcanicEnemiesLoop ρ speedMult abil pl dt acc rem splits trails k).1 =
      aliveCount acc ∧
    (volcanicEnemiesLoop ρ speedMult abil pl dt acc rem splits trails k).2.1.length =
      splits.length + 2 * rem.length ∧
    ((∀ c ∈ splits, c.alive = true) →
      ∀ c ∈ (volcanicEnemiesLoop ρ speedMult abil pl dt acc rem splits trails k).2.1,
        c.alive = true) := by
  intro rem
  induction rem with
  | nil =>
    intro acc splits trails k _ _
    refine ⟨by simp [volcanicEnemiesLoop], by simp [volcanicEnemiesLoop], ?_⟩
    intro hsp c hc
    rw [volcanicEnemiesLoop] at hc
    exact hsp c hc
  | cons e rest ih =>
    intro acc splits trails k hall hsmall
    have hw := hall e (List.mem_cons_self e rest)
    have hrest : ∀ x ∈ rest, willSplit abil pl dt x :=
      fun x hx => hall x (List.mem_cons_of_mem _ hx)
    obtain ⟨halive, hfroz, habil, hdist, hsize⟩ := hw
    have hskip : ¬ (e.alive = false ∨ e.frozen = true) := by
      simp [halive, hfroz]
    have hc : abil = true ∧
        hyp (pl.x - (chasePlayer e pl dt).x) (pl.y - (chasePlayer e pl dt).y) ≤ 200 ∧
        (chasePlayer e pl dt).sizeMult > 0.4 := ⟨habil, hdist, hsize⟩
    have hcount : aliveCount (e :: rest) = 1 + aliveCount rest := by
      rw [aliveCount_cons, halive]
      simp
    have hg : aliveCount acc + aliveCount rest + 2 ≤ MAX_PER_ZONE := by
      rw [hcount] at hsmall
      omega
    have hsm2 : ∀ efin : Enemy, efin.alive = false →
        aliveCount (acc ++ [efin]) + aliveCount rest + 1 ≤ MAX_PER_ZONE := by
      intro efin hdead
      rw [aliveCount_append, aliveCount_cons, aliveCount_nil, hdead]
      rw [hcount] at hsmall
      simp only [Bool.false_eq_true, if_false]
      omega
    rw [volcanicEnemiesLoop, if_neg hskip]
    dsimp only
    by_cases htr : (chasePlayer e pl dt).trailTimer + dt ≥ 0.3
    · rw [if_pos htr]
      dsimp only
      rw [if_pos hc, if_pos hg]
      refine ⟨?_, ?_, ?_⟩
      · refine ((ih _ _ _ _ hrest (hsm2 _ rfl)).1).trans ?_
        rw [aliveCount_append, aliveCount_cons, aliveCount_nil]
        simp
      · refine ((ih _ _ _ _ hrest (hsm2 _ rfl)).2.1).trans ?_
        rw [List.length_append, List.length_cons]
        simp only [List.length_cons, List.length_nil]
        omega
      · intro hsp
        refine (ih _ _ _ _ hrest (hsm2 _ rfl)).2.2 ?_
        intro c hc
        rw [List.mem_append] at hc
        rcases hc with h | h
        · exact hsp c h
        · simp only [List.mem_cons, List.not_mem_nil, or_false] at h
          rcases h with h | h <;> (rw [h]; rfl)
    · rw [if_neg htr]
      dsimp only
      rw [if_pos hc, if_pos hg]
      refine ⟨?_, ?_, ?_⟩
      · refine ((ih _ _ _ _ hrest (hsm2 _ rfl)).1).trans ?_
        rw [aliveCount_append, aliveCount_cons, aliveCount_nil]
        simp
      · refine ((ih _ _ _ _ hrest (hsm2 _ rfl)).2.1).trans ?_
        rw [List.length_append, List.length_cons]
        simp only [List.length_cons, List.length_nil]
        omega
      · intro hsp
        refine (ih _ _ _ _ hrest (hsm2 _ rfl)).2.2 ?_
        intro c hc
        rw [List.mem_append] at hc
        rcases hc with h | h
        · exact hsp c h
        · simp only [List.mem_cons, List.not_mem_nil, or_false] at h
          rcases h with h | h <;> (rw [h]; rfl)

/-- An inactive safe zone (late-level state). -/
def szI : SafeZone := ⟨1000, 1000, 61.44, 3, 3, false, true⟩

/-- An unfrozen mid-size (`sizeMult = 0.6`) magmawyrm at `(100, 100)`. -/
def mid1 : Enemy := { makeMagmawyrm 1 100 100 0.6 1 with frozen := false }

/-- Volcanic state with four mid-size enemies stacked at the player. -/
def vC1 : VolcanicState := ⟨[mid1, mid1, mid1, mid1], [], [], 0, 0, ⟨250, 250, false⟩⟩

/-- Empty glacial zone with a collected egg (inert). -/
def gE : GlacialState := ⟨[], [], [], 1.5, ⟨1800, 250, true, 0, 2⟩⟩

/-- Empty canopy zone with a collected, hosted egg (inert). -/
def cE : CanopyState := ⟨[], [], 0, 0, 150, 0, 0, 0, ⟨1200, 1200, true, false, some 0⟩⟩

/-- Empty reef zone with a collected egg (inert). -/
def rE : ReefState := ⟨[], [], 0, 0, 0, 0, 0, ⟨300, 1300, 45, 0, true⟩⟩

/-- Full simulation state for the C1 counterexample. -/
def stC1 : SimState :=
  { level := 1, speedMult := 1, time := 0, playerMoved := true
    prevPX := some 100, prevPY := some 100, prevAbilityCooldown := 0
    safeZone := szI, volcanic := vC1, glacial := gE, canopy := cE, reef := rE }

/-- Player at the enemies' position who just used an ability. -/
def pc1 : Player := ⟨100, 100, 12, 5, []⟩

theorem willSplit_mid1 : willSplit true pc1 0 mid1 := by
  refine ⟨rfl, rfl, rfl, ?_, ?_⟩
  · rw [(chasePlayer_pos_dt_zero mid1 pc1).1, (chasePlayer_pos_dt_zero mid1 pc1).2]
    norm_num [mid1, makeMagmawyrm, pc1, hyp_zero]
  · rw [(chasePlayer_fields mid1 pc1 0).2.2.1]
    norm_num [mid1, makeMagmawyrm, orOne]

/-- **C1 (counterexample).**  The claim says the alive count of a zone
never exceeds 6 after an `update`, *for any number of enemies splitting
in the same frame*.  With four `sizeMult = 0.6` enemies at the player and
the ability edge firing, every guard check passes — `_aliveCount` sees
only the (partially dead) enemy array, never the children already queued
in `newSplits` — so all four parents spawn two children each and the zone
ends the frame with **8** alive enemies. -/
theorem c1_zone_cap_counterexample :
    aliveCount stC1.volcanic.enemies = 4 ∧
    aliveCount (update (fun _ => 0.5) 0 0 stC1 pc1).1.volcanic.enemies = 8 ∧
    ¬ aliveCount (update (fun _ => 0.5) 0 0 stC1 pc1).1.volcanic.enemies ≤ MAX_PER_ZONE := by
  have hall : ∀ x ∈ [mid1, mid1, mid1, mid1], willSplit true pc1 0 x := by
    intro x hx
    simp only [List.mem_cons, List.not_mem_nil, or_false, or_self] at hx
    rw [hx]
    exact willSplit_mid1
  have hsmall : aliveCount ([] : List Enemy) + aliveCount [mid1, mid1, mid1, mid1] + 1 ≤
      MAX_PER_ZONE := by
    decide
  have hloop := volcanicEnemiesLoop_allSplit (fun _ => 0.5) 1 true pc1 0
    [mid1, mid1, mid1, mid1] [] [] [] 0 hall hsmall
  have hallalive := hloop.2.2 (fun c hc => absurd hc (List.not_mem_nil c))
  have hsplen : (volcanicEnemiesLoop (fun _ => 0.5) 1 true pc1 0 [] [mid1, mid1, mid1, mid1]
      [] [] 0).2.1.length = 8 := by
    rw [hloop.2.1]
    rfl
  have hsp : volcanicSpeedStep 0 0 [mid1, mid1, mid1, mid1] =
      (0, [mid1, mid1, mid1, mid1]) := by
    norm_num [volcanicSpeedStep]
  have htr : volcanicTrailStep 0 [] pc1 = ([], pc1) := by
    simp [volcanicTrailStep]
  have hgy : volcanicGeysersStep 0 [] pc1 = ([], pc1) := by
    simp [volcanicGeysersStep]
  have htk : tickEffects [mid1, mid1, mid1, mid1] 0 = [mid1, mid1, mid1, mid1] := by
    simp [tickEffects, tickEffectList, mid1, makeMagmawyrm]
  have hblockI : ∀ l, blockFromSafeZone szI l = l := by
    intro l
    rw [blockFromSafeZone, if_pos]
    rfl
  have hszI : updateSafeZone szI pc1 = szI := by
    rw [updateSafeZone, if_pos]
    rfl
  have habil : decide ((0 : ℝ) = 0 ∧ (5 : ℝ) > 0) = true := by
    rw [decide_eq_true_eq]
    norm_num
  have hvol : aliveCount (updateVolcanic (fun _ => 0.5) 0 szI 0 pc1 true 1 vC1).1.enemies =
      8 := by
    rw [updateVolcanic]
    dsimp only [vC1]
    rw [hsp]
    dsimp only
    rw [htr]
    dsimp only
    rw [hgy]
    dsimp only
    rw [htk, hblockI, aliveCount_append, aliveCount_filter, hloop.1,
      aliveCount_of_all_alive _ hallalive, hsplen]
    rfl
  have hproj : (update (fun _ => 0.5) 0 0 stC1 pc1).1.volcanic.enemies =
      (updateVolcanic (fun _ => 0.5) 0 (updateSafeZone szI pc1) 0 pc1
        (decide ((0 : ℝ) = 0 ∧ (5 : ℝ) > 0)) 1 vC1).1.enemies := rfl
  have hmain : aliveCount (update (fun _ => 0.5) 0 0 stC1 pc1).1.volcanic.enemies = 8 := by
    rw [hproj, hszI, habil]
    exact hvol
  exact ⟨rfl, hmain, by rw [hmain]; decide⟩

/-- At most one enemy of the list satisfies the split condition: either
none does, or the list decomposes around a unique splitter. -/
def atMostOneSplitter (abil : Bool) (pl : Player) (dt : ℝ) (l : List Enemy) : Prop :=
  (∀ x ∈ l, ¬ willSplit abil pl dt x) ∨
  ∃ l1 e l2, l = l1 ++ e :: l2 ∧ willSplit abil pl dt e ∧
    (∀ x ∈ l1, ¬ willSplit abil pl dt x) ∧ (∀ x ∈ l2, ¬ willSplit abil pl dt x)

/-- `_updateVolcanic` preserves the 6-enemy cap provided at most one enemy
splits in the frame (the hypothesis is about the enemy list the loop
actually sees — after the speed-boost and effect-tick passes — and the
player as pushed by lava trails and geysers). -/
theorem updateVolcanic_cap (ρ : ℕ → ℝ) (k : ℕ) (sz : SafeZone) (dt : ℝ) (pl : Player)
    (abil : Bool) (speedMult : ℝ) (v : VolcanicState)
    (hcap : aliveCount v.enemies ≤ MAX_PER_ZONE)
    (hone : atMostOneSplitter abil
      (volcanicGeysersStep dt v.geysers (volcanicTrailStep dt v.lavaTrails pl).2).2 dt
      (tickEffects (volcanicSpeedStep dt v.speedTimer v.enemies).2 dt)) :
    aliveCount (updateVolcanic ρ k sz dt pl abil speedMult v).1.enemies ≤ MAX_PER_ZONE := by
  have hLcount : aliveCount (tickEffects (volcanicSpeedStep dt v.speedTimer v.enemies).2 dt) =
      aliveCount v.enemies := by
    rw [tickEffects_aliveCount, volcanicSpeedStep_aliveCount]
  rw [updateVolcanic]
  dsimp only
  rw [blockFromSafeZone_aliveCount, aliveCount_append, aliveCount_filter]
  rcases hone with hnone | ⟨l1, e, l2, heq, hwe, h1, h2⟩
  · rw [(volcanicEnemiesLoop_noSplit ρ speedMult abil _ dt _ [] []
      (volcanicTrailStep dt v.lavaTrails pl).1 k hnone).1]
    rw [(volcanicEnemiesLoop_noSplit ρ speedMult abil _ dt _ [] []
      (volcanicTrailStep dt v.lavaTrails pl).1 k hnone).2]
    rw [aliveCount_nil, hLcount]
    simpa using hcap
  · rw [heq]
    rw [heq, aliveCount_append, aliveCount_cons, hwe.1] at hLcount
    obtain ⟨acc', trails', heq2, hct⟩ := volcanicEnemiesLoop_prefix ρ speedMult abil _ dt
      l1 (e :: l2) [] [] (volcanicTrailStep dt v.lavaTrails pl).1 k h1
    rw [heq2]
    have hs := volcanicEnemiesLoop_single ρ speedMult abil _ dt e l2 acc' trails' k hwe h2
    rw [hs.1]
    rw [aliveCount_nil] at hct
    by_cases hg : aliveCount acc' + aliveCount l2 + 2 ≤ MAX_PER_ZONE
    · have hb := hs.2.2
      omega
    · rw [hs.2.1, if_neg hg, aliveCount_nil]
      simp only [if_pos rfl] at hLcount
      omega

theorem chasePlayer_alive (e : Enemy) (pl : Player) (dt : ℝ) :
    (chasePlayer e pl dt).alive = e.alive :=
  (chasePlayer_fields e pl dt).1

theorem glacialEnemyStep_alive (ρ : ℕ → ℝ) (dt : ℝ) (pl : Player) (e : Enemy) (cd : ℝ)
    (tiles : List FrozenTile) (bullets : List IceBullet) (k : ℕ) :
    (glacialEnemyStep ρ dt pl e cd tiles bullets k).1.alive = e.alive := by
  rw [glacialEnemyStep]
  dsimp only
  split_ifs <;> rfl

theorem glacialEnemiesLoop_aliveCount (ρ : ℕ → ℝ) (dt : ℝ) (pl : Player) :
    ∀ (l : List Enemy) (cd : ℝ) (tiles : List FrozenTile) (bullets : List IceBullet)
      (k : ℕ),
    aliveCount (glacialEnemiesLoop ρ dt pl l cd tiles bullets k).1 = aliveCount l := by
  intro l
  induction l with
  | nil =>
    intro cd tiles bullets k
    rfl
  | cons e rest ih =>
    intro cd tiles bullets k
    rw [glacialEnemiesLoop]
    by_cases hskip : e.alive = false ∨ e.frozen = true
    · rw [if_pos hskip]
      dsimp only
      rw [aliveCount_cons, aliveCount_cons, ih]
    · rw [if_neg hskip]
      dsimp only
      rw [aliveCount_cons, aliveCount_cons, ih, glacialEnemyStep_alive]

/-- `_updateGlacial` never adds or removes enemies: the alive count is
preserved exactly. -/
theorem updateGlacial_aliveCount (ρ : ℕ → ℝ) (k : ℕ) (sz : SafeZone) (dt : ℝ)
    (pl : Player) (g : GlacialState) :
    aliveCount (updateGlacial ρ k sz dt pl g).1.enemies = aliveCount g.enemies := by
  rw [updateGlacial]
  dsimp only
  rw [blockFromSafeZone_aliveCount, glacialEnemiesLoop_aliveCount, tickEffects_aliveCount]

theorem canopyEnemyStep_alive (dt : ℝ) (pl : Player) (e : Enemy) :
    (canopyEnemyStep dt pl e).alive = e.alive := by
  rw [canopyEnemyStep]
  dsimp only
  split_ifs <;> simp [chasePlayer_alive]

theorem spawnThornwyrm_cap (ρ : ℕ → ℝ) (k : ℕ) (pm : Bool) (sm tr : ℝ)
    (enemies : List Enemy) (h : aliveCount enemies ≤ MAX_PER_ZONE) :
    aliveCount (spawnThornwyrm ρ k pm sm tr enemies).1 ≤ MAX_PER_ZONE := by
  rw [spawnThornwyrm]
  by_cases hfull : aliveCount enemies ≥ MAX_PER_ZONE
  · rw [if_pos hfull]
    exact h
  · rw [if_neg hfull]
    dsimp only
    rw [aliveCount_append, aliveCount_cons, aliveCount_nil]
    have : aliveCount enemies + 1 ≤ MAX_PER_ZONE := by
      rw [MAX_PER_ZONE] at hfull ⊢
      omega
    split_ifs <;> omega

/-- `_updateCanopy` keeps the zone at or below the 6-enemy cap. -/
theorem updateCanopy_cap (ρ : ℕ → ℝ) (k : ℕ) (sz : SafeZone) (dt : ℝ) (pm : Bool)
    (sm : ℝ) (pl : Player) (c : CanopyState)
    (h : aliveCount c.enemies ≤ MAX_PER_ZONE) :
    aliveCount (updateCanopy ρ k sz dt pm sm pl c).1.enemies ≤ MAX_PER_ZONE := by
  rw [updateCanopy]
  dsimp only
  rw [blockFromSafeZone_aliveCount, aliveCount_map (canopyEnemyStep dt pl)
    (fun e => canopyEnemyStep_alive dt pl e), tickEffects_aliveCount]
  by_cases hm : ¬ inZone pl.x pl.y zoneCanopy ∧ c.multiplyTimer + dt ≥ 10
  · rw [if_pos hm]
    dsimp only
    by_cases ht : c.teleportTimer + dt ≥ 5
    · rw [if_pos ht]
      dsimp only
      rw [aliveCount_map (fun e => { e with teleportRange := c.teleportRange + 50 })
        (fun e => rfl)]
      exact spawnThornwyrm_cap ρ k pm sm c.teleportRange c.enemies h
    · rw [if_neg ht]
      exact spawnThornwyrm_cap ρ k pm sm c.teleportRange c.enemies h
  · rw [if_neg hm]
    dsimp only
    by_cases ht : c.teleportTimer + dt ≥ 5
    · rw [if_pos ht]
      dsimp only
      rw [aliveCount_map (fun e => { e with teleportRange := c.teleportRange + 50 })
        (fun e => rfl)]
      exact h
    · rw [if_neg ht]
      exact h

theorem reefMoveEnemies_aliveCount (z : Rect) (c : ℕ) (phase dt : ℝ) (n : ℕ) :
    ∀ (l : List Enemy) (i : ℕ),
    aliveCount (reefMoveEnemies z c phase dt n l i) = aliveCount l := by
  intro l
  induction l with
  | nil => intro i; rfl
  | cons e rest ih =>
    intro i
    rw [reefMoveEnemies]
    by_cases hmove : e.alive = true ∧ e.frozen = false
    · rw [if_pos hmove]
      dsimp only
      rw [aliveCount_cons, aliveCount_cons, ih]
    · rw [if_neg hmove]
      rw [aliveCount_cons, aliveCount_cons, ih]

theorem reefObstacleStep_aliveCount (dt : ℝ) (z : Rect) (o : ReefObstacle) (pl : Player)
    (ens : List Enemy) :
    aliveCount (reefObstacleStep dt z o pl ens).2.2 = aliveCount ens := by
  rw [reefObstacleStep]
  dsimp only
  apply aliveCount_map
  intro e
  dsimp only
  split_ifs <;> rfl

theorem reefObstaclesFold_aliveCount (dt : ℝ) (z : Rect) :
    ∀ (obs : List ReefObstacle) (acc : List ReefObstacle) (pl : Player)
      (ens : List Enemy),
    aliveCount (obs.foldl
      (fun acc o =>
        let s := reefObstacleStep dt z o acc.2.1 acc.2.2
        (acc.1 ++ [s.1], s.2.1, s.2.2))
      (acc, pl, ens)).2.2 = aliveCount ens := by
  intro obs
  induction obs with
  | nil => intro acc pl ens; rfl
  | cons o rest ih =>
    intro acc pl ens
    rw [List.foldl_cons]
    dsimp only
    rw [ih, reefObstacleStep_aliveCount]

/-- `_updateReef` keeps the zone at or below the 6-enemy cap. -/
theorem updateReef_cap (ρ : ℕ → ℝ) (k : ℕ) (sz : SafeZone) (dt : ℝ) (pl : Player)
    (sm : ℝ) (r : ReefState) (h : aliveCount r.enemies ≤ MAX_PER_ZONE) :
    aliveCount (updateReef ρ k sz dt pl sm r).1.enemies ≤ MAX_PER_ZONE := by
  rw [updateReef]
  dsimp only
  rw [blockFromSafeZone_aliveCount, reefObstaclesFold_aliveCount,
    reefMoveEnemies_aliveCount, tickEffects_aliveCount]
  by_cases hm : r.multiplyTimer + dt ≥ 10
  · rw [if_pos hm]
    by_cases hfull : aliveCount r.enemies < MAX_PER_ZONE
    · rw [if_pos hfull]
      dsimp only
      rw [aliveCount_append, aliveCount_cons, aliveCount_nil]
      have : aliveCount r.enemies + 1 ≤ MAX_PER_ZONE := hfull
      split_ifs <;> omega
    · rw [if_neg hfull]
      exact h
  · rw [if_neg hm]
    exact h

/-- `init` seeds one magmawyrm, one frostwyrm, two thornwyrms and three
tidewyrms — every zone starts within the cap. -/
theorem init_aliveCounts (ρ : ℕ → ℝ) (k level : ℕ) :
    aliveCount (init ρ k level).1.volcanic.enemies = 1 ∧
    aliveCount (init ρ k level).1.glacial.enemies = 1 ∧
    aliveCount (init ρ k level).1.canopy.enemies = 2 ∧
    aliveCount (init ρ k level).1.reef.enemies = 3 :=
  ⟨rfl, rfl, rfl, rfl⟩

/-- The safe zone as `update` passes it to every zone updater. -/
def szU (st : SimState) (pl : Player) : SafeZone := updateSafeZone st.safeZone pl

/-- The ability edge flag as `update` computes it on a `playerMoved` frame. -/
def abilU (st : SimState) (pl : Player) : Bool :=
  decide (st.prevAbilityCooldown = 0 ∧ pl.abilityCooldown > 0)

/-- The volcanic result inside a `playerMoved` frame of `update`. -/
def vU (ρ : ℕ → ℝ) (k : ℕ) (dt : ℝ) (st : SimState) (pl : Player) :
    VolcanicState × Player × ℕ :=
  updateVolcanic ρ k (szU st pl) dt pl (abilU st pl) st.speedMult st.volcanic

/-- The glacial result inside a `playerMoved` frame of `update`. -/
def gU (ρ : ℕ → ℝ) (k : ℕ) (dt : ℝ) (st : SimState) (pl : Player) :
    GlacialState × Player × ℕ :=
  updateGlacial ρ (vU ρ k dt st pl).2.2 (szU st pl) dt (vU ρ k dt st pl).2.1 st.glacial

/-- The canopy result inside a `playerMoved` frame of `update`. -/
def cU (ρ : ℕ → ℝ) (k : ℕ) (dt : ℝ) (st : SimState) (pl : Player) : CanopyState × ℕ :=
  updateCanopy ρ (gU ρ k dt st pl).2.2 (szU st pl) dt true st.speedMult
    (gU ρ k dt st pl).2.1 st.canopy

/-- The reef result inside a `playerMoved` frame of `update`. -/
def rfU (ρ : ℕ → ℝ) (k : ℕ) (dt : ℝ) (st : SimState) (pl : Player) :
    ReefState × Player × ℕ :=
  updateReef ρ (cU ρ k dt st pl).2 (szU st pl) dt (gU ρ k dt st pl).2.1 st.speedMult st.reef

/-- On a `playerMoved` frame, `update`'s four zone enemy lists are exactly
the outputs of the four zone updaters chained in source order. -/
theorem update_moved_proj (ρ : ℕ → ℝ) (k : ℕ) (dt : ℝ) (st : SimState) (pl : Player)
    (hpm : st.playerMoved = true) :
    (update ρ k dt st pl).1.volcanic.enemies = (vU ρ k dt st pl).1.enemies ∧
    (update ρ k dt st pl).1.glacial.enemies = (gU ρ k dt st pl).1.enemies ∧
    (update ρ k dt st pl).1.canopy.enemies = (cU ρ k dt st pl).1.enemies ∧
    (update ρ k dt st pl).1.reef.enemies = (rfU ρ k dt st pl).1.enemies := by
  refine ⟨?_, ?_, ?_, ?_⟩ <;> simp [update, vU, gU, cU, rfU, szU, abilU, hpm]

/-- **C1 (amended).**  Over `init` and over `update` frames, each zone's
alive count stays within the 6-enemy cap — for the Volcanic zone only
under the extra hypothesis that at most one enemy passes the split check
that frame.  The guard at the split site counts only the enemy array
(never the children already queued in `newSplits`), so each additional
same-frame splitter can overshoot the cap by 2; with a single splitter the
guard is sound.  The Glacial zone preserves its count exactly, and the
Canopy/Reef spawn sites enforce the cap unconditionally. -/
theorem c1_zone_cap_amended (ρ : ℕ → ℝ) (k : ℕ) (dt : ℝ) (st : SimState) (pl : Player)
    (level : ℕ)
    (hpm : st.playerMoved = true)
    (hv : aliveCount st.volcanic.enemies ≤ MAX_PER_ZONE)
    (hg : aliveCount st.glacial.enemies ≤ MAX_PER_ZONE)
    (hc : aliveCount st.canopy.enemies ≤ MAX_PER_ZONE)
    (hr : aliveCount st.reef.enemies ≤ MAX_PER_ZONE)
    (hone : atMostOneSplitter (abilU st pl)
      (volcanicGeysersStep dt st.volcanic.geysers
        (volcanicTrailStep dt st.volcanic.lavaTrails pl).2).2 dt
      (tickEffects (volcanicSpeedStep dt st.volcanic.speedTimer st.volcanic.enemies).2 dt)) :
    (aliveCount (update ρ k dt st pl).1.volcanic.enemies ≤ MAX_PER_ZONE ∧
     aliveCount (update ρ k dt st pl).1.glacial.enemies ≤ MAX_PER_ZONE ∧
     aliveCount (update ρ k dt st pl).1.canopy.enemies ≤ MAX_PER_ZONE ∧
     aliveCount (update ρ k dt st pl).1.reef.enemies ≤ MAX_PER_ZONE) ∧
    (aliveCount (init ρ k level).1.volcanic.enemies ≤ MAX_PER_ZONE ∧
     aliveCount (init ρ k level).1.glacial.enemies ≤ MAX_PER_ZONE ∧
     aliveCount (init ρ k level).1.canopy.enemies ≤ MAX_PER_ZONE ∧
     aliveCount (init ρ k level).1.reef.enemies ≤ MAX_PER_ZONE) := by
  obtain ⟨hpv, hpg, hpc, hpr⟩ := update_moved_proj ρ k dt st pl hpm
  refine ⟨⟨?_, ?_, ?_, ?_⟩, ?_⟩
  · rw [hpv]
    exact updateVolcanic_cap ρ k (szU st pl) dt pl (abilU st pl) st.speedMult
      st.volcanic hv hone
  · rw [hpg]
    simp only [gU]
    rw [updateGlacial_aliveCount]
    exact hg
  · rw [hpc]
    simp only [cU]
    exact updateCanopy_cap ρ (gU ρ k dt st pl).2.2 (szU st pl) dt true st.speedMult
      (gU ρ k dt st pl).2.1 st.canopy hc
  · rw [hpr]
    simp only [rfU]
    exact updateReef_cap ρ (cU ρ k dt st pl).2 (szU st pl) dt (gU ρ k dt st pl).2.1
      st.speedMult st.reef hr
  · obtain ⟨h1, h2, h3, h4⟩ := init_aliveCounts ρ k level
    rw [h1, h2, h3, h4, MAX_PER_ZONE]
    omega

/-- Player for the C1 witness: same spot as `stC1`'s enemies, ability idle
(so no enemy can pass the split check). -/
def pW : Player := ⟨100, 100, 12, 0, []⟩

/-- Concrete instantiation of `c1_zone_cap_amended` at `stC1` with an idle
ability. -/
theorem c1_zone_cap_witness :
    (stC1.playerMoved = true ∧ aliveCount stC1.volcanic.enemies ≤ MAX_PER_ZONE) ∧
    ((aliveCount (update (fun _ => 0.5) 0 1 stC1 pW).1.volcanic.enemies ≤ MAX_PER_ZONE ∧
      aliveCount (update (fun _ => 0.5) 0 1 stC1 pW).1.glacial.enemies ≤ MAX_PER_ZONE ∧
      aliveCount (update (fun _ => 0.5) 0 1 stC1 pW).1.canopy.enemies ≤ MAX_PER_ZONE ∧
      aliveCount (update (fun _ => 0.5) 0 1 stC1 pW).1.reef.enemies ≤ MAX_PER_ZONE) ∧
     (aliveCount (init (fun _ => 0.5) 0 1).1.volcanic.enemies ≤ MAX_PER_ZONE ∧
      aliveCount (init (fun _ => 0.5) 0 1).1.glacial.enemies ≤ MAX_PER_ZONE ∧
      aliveCount (init (fun _ => 0.5) 0 1).1.canopy.enemies ≤ MAX_PER_ZONE ∧
      aliveCount (init (fun _ => 0.5) 0 1).1.reef.enemies ≤ MAX_PER_ZONE)) :=
  ⟨⟨rfl, by decide⟩,
   c1_zone_cap_amended (fun _ => 0.5) 0 1 stC1 pW 1 rfl (by decide) (by decide)
     (by decide) (by decide)
     (Or.inl fun x hx h => absurd (of_decide_eq_true h.2.2.1).2 (by norm_num [pW]))⟩

/-! ## C2 — the safe-zone exclusion invariant -/

theorem hyp_mul_self (dx dy : ℝ) : hyp dx dy * hyp dx dy = dx * dx + dy * dy := by
  rw [hyp]
  exact Real.mul_self_sqrt (add_nonneg (mul_self_nonneg dx) (mul_self_nonneg dy))

theorem hyp_eq_zero_iff (dx dy : ℝ) : hyp dx dy = 0 ↔ dx = 0 ∧ dy = 0 := by
  constructor
  · intro h
    have h2 : dx * dx + dy * dy = 0 := by
      have hm := hyp_mul_self dx dy
      rw [h] at hm
      linarith
    exact ⟨mul_self_eq_zero.mp (by nlinarith [mul_self_nonneg dx, mul_self_nonneg dy]),
           mul_self_eq_zero.mp (by nlinarith [mul_self_nonneg dx, mul_self_nonneg dy])⟩
  · rintro ⟨h1, h2⟩
    rw [h1, h2, hyp_zero]

/-- **C2 (amended).**  `_blockFromSafeZone` guarantees the exclusion
distance only for enemies *not* at the exact safe-zone centre: every alive
enemy it outputs is either at distance at least `radius + e.radius` from
the centre, or sits exactly on the centre point.  (At the centre
`dx = dy = 0`, the `|| 1` guard turns the distance into 1, and the push
`sz.x + (dx/dist)*minD` is the identity — the enemy is never expelled, so
the claimed invariant fails there and only there.) -/
theorem c2_safezone_exclusion_amended (sz : SafeZone) (l : List Enemy)
    (ha : sz.active = true) (hr : 0 ≤ sz.radius) :
    ∀ e ∈ blockFromSafeZone sz l, e.alive = true → 0 ≤ e.radius →
      sz.radius + e.radius ≤ hyp (e.x - sz.x) (e.y - sz.y) ∨
      (e.x = sz.x ∧ e.y = sz.y) := by
  intro e he halive hrad
  rw [blockFromSafeZone, if_neg (by simp [ha])] at he
  rw [List.mem_map] at he
  obtain ⟨a, hal, hfa⟩ := he
  subst hfa
  dsimp only at halive hrad ⊢
  by_cases hA : a.alive = false
  · rw [if_pos hA] at halive
    exact absurd halive (by simp [hA])
  · rw [if_neg hA] at halive hrad ⊢
    by_cases hzero : hyp (a.x - sz.x) (a.y - sz.y) = 0
    · obtain ⟨hdx, hdy⟩ := (hyp_eq_zero_iff _ _).mp hzero
      by_cases hlt : orOne (hyp (a.x - sz.x) (a.y - sz.y)) < sz.radius + a.radius
      · rw [if_pos hlt] at hrad ⊢
        right
        dsimp only
        constructor
        · rw [hdx]
          simp
        · rw [hdy]
          simp
      · rw [if_neg hlt] at hrad ⊢
        right
        exact ⟨by linarith [hdx], by linarith [hdy]⟩
    · have hor : orOne (hyp (a.x - sz.x) (a.y - sz.y)) = hyp (a.x - sz.x) (a.y - sz.y) := by
        rw [orOne, if_neg hzero]
      have hpos : 0 < hyp (a.x - sz.x) (a.y - sz.y) :=
        lt_of_le_of_ne (hyp_nonneg _ _) (Ne.symm hzero)
      by_cases hlt : orOne (hyp (a.x - sz.x) (a.y - sz.y)) < sz.radius + a.radius
      · rw [if_pos hlt] at hrad ⊢
        left
        dsimp only at hrad ⊢
        rw [hor]
        refine le_of_eq (hyp_eq_of_sq (add_nonneg hr hrad) ?_).symm
        have hsq : hyp (a.x - sz.x) (a.y - sz.y) * hyp (a.x - sz.x) (a.y - sz.y) =
            (a.x - sz.x) * (a.x - sz.x) + (a.y - sz.y) * (a.y - sz.y) :=
          hyp_mul_self _ _
        field_simp
        nlinarith [hsq]
      · rw [if_neg hlt] at hrad ⊢
        left
        rw [hor] at hlt
        exact not_lt.mp hlt

/-- An active full-size safe zone at the map centre. -/
def szA : SafeZone := ⟨1000, 1000, 120, 0, 3, true, false⟩

/-- An unfrozen full-size magmawyrm sitting exactly on the safe-zone
centre. -/
def e2c : Enemy := { makeMagmawyrm 1 1000 1000 1 1 with frozen := false }

/-- Volcanic state holding only `e2c`. -/
def v2c : VolcanicState := ⟨[e2c], [], [], 0, 0, ⟨250, 250, false⟩⟩

/-- Full simulation state for the C2 counterexample. -/
def st2c : SimState :=
  { level := 1, speedMult := 1, time := 0, playerMoved := true
    prevPX := some 1000, prevPY := some 1000, prevAbilityCooldown := 0
    safeZone := szA, volcanic := v2c, glacial := gE, canopy := cE, reef := rE }

/-- Player at the safe-zone centre with an idle ability. -/
def p2c : Player := ⟨1000, 1000, 12, 0, []⟩

/-- `e2c` after its (motionless, `dt = 0`) pass through the volcanic
enemy loop. -/
def eT2c : Enemy :=
  { chasePlayer e2c p2c 0 with trailTimer := (chasePlayer e2c p2c 0).trailTimer + 0 }

/-- `eT2c` after the safe-zone push — the push lands it exactly back on
the centre. -/
def eF2c : Enemy := { eT2c with x := 1000, y := 1000 }

/-- **C2 (counterexample).**  The claim says that after every full
`update`, while the safe zone is active, every alive enemy is at distance
at least `radius + e.radius` from the centre.  Run one `update` with the
player and a magmawyrm both exactly on the centre: the player consumes a
use (zone stays active, radius 96) and the push-out in
`_blockFromSafeZone` moves the centre-stacked enemy to
`sz.x + (0/1)·minD = sz.x` — it stays on the centre at distance 0, far
below the required `96 + 20`. -/
theorem c2_safezone_exclusion_counterexample :
    (update (fun _ => 0.5) 0 0 st2c p2c).1.safeZone.active = true ∧
    ∃ e ∈ (update (fun _ => 0.5) 0 0 st2c p2c).1.volcanic.enemies,
      e.alive = true ∧
      hyp (e.x - (update (fun _ => 0.5) 0 0 st2c p2c).1.safeZone.x)
          (e.y - (update (fun _ => 0.5) 0 0 st2c p2c).1.safeZone.y) <
        (update (fun _ => 0.5) 0 0 st2c p2c).1.safeZone.radius + e.radius := by
  have hszA : updateSafeZone szA p2c = ⟨1000, 1000, 96, 1, 3, true, true⟩ := by
    rw [updateSafeZone, if_neg (by simp [szA])]
    dsimp only [szA, p2c]
    have hin : hyp ((1000 : ℝ) - 1000) ((1000 : ℝ) - 1000) < (120 : ℝ) - 12 := by
      norm_num [hyp_zero]
    rw [if_pos ⟨hin, rfl⟩, decide_eq_true hin]
    norm_num
  have hsz : (update (fun _ => 0.5) 0 0 st2c p2c).1.safeZone =
      (⟨1000, 1000, 96, 1, 3, true, true⟩ : SafeZone) :=
    (rfl : (update (fun _ => 0.5) 0 0 st2c p2c).1.safeZone =
      updateSafeZone szA p2c).trans hszA
  have habil2 : decide ((0 : ℝ) = 0 ∧ (0 : ℝ) > 0) = false := by
    rw [decide_eq_false_iff_not]
    norm_num
  have halT : eT2c.alive = true := by
    show (chasePlayer e2c p2c 0).alive = true
    rw [(chasePlayer_fields e2c p2c 0).1]
    rfl
  have heTx : eT2c.x = 1000 := (chasePlayer_pos_dt_zero e2c p2c).1.trans rfl
  have heTy : eT2c.y = 1000 := (chasePlayer_pos_dt_zero e2c p2c).2.trans rfl
  have heTr : eT2c.radius = 20 := by
    show (chasePlayer e2c p2c 0).radius = 20
    rw [(chasePlayer_fields e2c p2c 0).2.2.2.1]
    norm_num [e2c, makeMagmawyrm, orOne]
  have hloop : volcanicEnemiesLoop (fun _ => 0.5) 1 false p2c 0 [] [e2c] [] [] 0 =
      ([eT2c], [], [], 0) := by
    rw [volcanicEnemiesLoop, if_neg (by simp [e2c, makeMagmawyrm])]
    dsimp only
    have htr : ¬ ((chasePlayer e2c p2c 0).trailTimer + 0 ≥ 0.3) := by
      rw [(chasePlayer_fields e2c p2c 0).2.2.2.2.2]
      norm_num [e2c, makeMagmawyrm]
    rw [if_neg htr]
    dsimp only
    rw [if_neg (by simp)]
    rw [volcanicEnemiesLoop]
    rfl
  have hfilt : List.filter (fun e => e.alive) [eT2c] = [eT2c] := by
    simp [List.filter, halT]
  have hvol2 : (updateVolcanic (fun _ => 0.5) 0 (updateSafeZone szA p2c) 0 p2c
      false 1 v2c).1.enemies =
      blockFromSafeZone ⟨1000, 1000, 96, 1, 3, true, true⟩ [eT2c] := by
    have hsp0 : volcanicSpeedStep 0 0 [e2c] = (0, [e2c]) := by
      norm_num [volcanicSpeedStep]
    have htr0 : volcanicTrailStep 0 [] p2c = ([], p2c) := by
      simp [volcanicTrailStep]
    have hgy0 : volcanicGeysersStep 0 [] p2c = ([], p2c) := by
      simp [volcanicGeysersStep]
    have htk0 : tickEffects [e2c] 0 = [e2c] := by
      simp [tickEffects, tickEffectList, e2c, makeMagmawyrm]
    rw [updateVolcanic]
    dsimp only [v2c]
    rw [hsp0]
    dsimp only
    rw [htr0]
    dsimp only
    rw [hgy0]
    dsimp only
    rw [htk0, hloop, hszA]
    dsimp only
    rw [hfilt, List.append_nil]
  have hfeT : blockFromSafeZone ⟨1000, 1000, 96, 1, 3, true, true⟩ [eT2c] = [eF2c] := by
    rw [blockFromSafeZone, if_neg (by simp)]
    dsimp only [List.map]
    rw [if_neg (by simp [halT])]
    have hd0 : hyp (eT2c.x - 1000) (eT2c.y - 1000) = 0 := by
      rw [heTx, heTy]
      norm_num [hyp_zero]
    have hor : orOne (hyp (eT2c.x - 1000) (eT2c.y - 1000)) = 1 := by
      rw [hd0, orOne, if_pos rfl]
    rw [if_pos (by rw [hor, heTr]; norm_num)]
    have hxeq : 1000 + (eT2c.x - 1000) / orOne (hyp (eT2c.x - 1000) (eT2c.y - 1000)) *
        (96 + eT2c.radius) = (1000 : ℝ) := by
      rw [hor, heTx]
      norm_num
    have hyeq : 1000 + (eT2c.y - 1000) / orOne (hyp (eT2c.x - 1000) (eT2c.y - 1000)) *
        (96 + eT2c.radius) = (1000 : ℝ) := by
      rw [hor, heTy]
      norm_num
    rw [hxeq, hyeq]
    rfl
  have henemies : (update (fun _ => 0.5) 0 0 st2c p2c).1.volcanic.enemies = [eF2c] := by
    have hproj2 : (update (fun _ => 0.5) 0 0 st2c p2c).1.volcanic.enemies =
        (updateVolcanic (fun _ => 0.5) 0 (updateSafeZone szA p2c) 0 p2c
          (decide ((0 : ℝ) = 0 ∧ (0 : ℝ) > 0)) 1 v2c).1.enemies := rfl
    rw [hproj2, habil2, hvol2, hfeT]
  have halF : eF2c.alive = true := halT
  have hfr : eF2c.radius = 20 := heTr
  refine ⟨by rw [hsz], eF2c, ?_, halF, ?_⟩
  · rw [henemies]
    exact List.mem_singleton.mpr rfl
  · rw [hsz, hfr]
    dsimp only
    rw [show eF2c.x = (1000 : ℝ) from rfl, show eF2c.y = (1000 : ℝ) from rfl]
    norm_num [hyp_zero]

/-- Concrete instantiation of `c2_safezone_exclusion_amended`: the
centre-stacked enemy lands in the right-hand (centre) disjunct. -/
theorem c2_safezone_exclusion_witness :
    (szA.active = true ∧ (0 : ℝ) ≤ szA.radius) ∧
    ∀ e ∈ blockFromSafeZone szA [e2c], e.alive = true → 0 ≤ e.radius →
      szA.radius + e.radius ≤ hyp (e.x - szA.x) (e.y - szA.y) ∨
      (e.x = szA.x ∧ e.y = szA.y) :=
  ⟨⟨rfl, by norm_num [szA]⟩,
   c2_safezone_exclusion_amended szA [e2c] rfl (by norm_num [szA])⟩

end Enemies
